import Mathlib

/-!
Shallow Lean embedding of the deterministic recommendation engine of the
`livekit-birla-agent` repository, together with theorems settling the frozen
claims about it.

The four evaluators embedded here are the decision kernels of:
  * `src/tools/account_block_status.py`  (`check_account_block_status`)
  * `src/tools/kyc_status_checker.py`    (`kyc_status_checker_tool`)
  * `src/tools/cash_transfer_tool.py`    (`get_cash_transfer_history`,
                                          `_compute_point_balance`)
  * `src/tools/code_history_tool.py`     (`query_code_history`)

Modelling conventions, shared by all four embeddings:

  * CSV rows (Python `dict[str, str]` from `csv.DictReader`) become Lean
    structures whose fields are `String` (a missing column is the empty
    string, matching the `row.get(k) or ''` / `row.get(k, '')` idioms of the
    source; where the source distinguishes `None` from `''` we use
    `Option String`).
  * Python `datetime` values are modelled as `Nat` (seconds on a monotone
    axis; `datetime.min` is `0`).  `datetime.strptime` and `strftime` are
    I/O-free library functions, not repository code, so they enter the
    embedding as explicit function parameters (`strptime`, `parse_dt`,
    `fmt…`); every theorem quantifies over them and every witness
    instantiates them with a concrete table that respects the real
    formats' ordering on the strings it is applied to.
  * File access, CSV reading and the `try/except` wrappers of the tools are
    I/O plumbing; the kernels here receive the already-read row lists and
    return `Except String _` where the source returns an error dictionary
    for a usage error.  Fields of the returned dictionaries that are pure
    echoes of the input (the `query` block, customer name, raw field
    copies) are omitted from the result structures; every field consulted
    by a claim is present.
  * Python truthiness on optional strings (`x or y`) is modelled by
    `optTruthy` / `strOr` / `optOrStr` below.
-/

namespace Birla

/-- Python truthiness of an optional string: `None` and `""` are falsy. -/
def optTruthy : Option String → Bool
  | none => false
  | some s => s ≠ ""

/-- Python `(x or '')` for an optional string. -/
def strOr : Option String → String
  | none => ""
  | some s => s

/-- Python `(a or b)` for two optional strings (first operand kept when truthy). -/
def optOrStr (a b : Option String) : Option String :=
  if optTruthy a then a else b

/-- Python `str.zfill(width)` for digit-only strings: left-pad with `'0'`. -/
def zfill (width : Nat) (s : String) : String :=
  String.mk (List.replicate (width - s.length) '0') ++ s

/-- Python `str.upper()` (character-wise ASCII uppercasing), defined by
structural recursion so that concrete witnesses evaluate by kernel
reduction. -/
def pyUpper (s : String) : String := String.mk (s.data.map Char.toUpper)

/-- Python `str.lower()` (character-wise ASCII lowercasing). -/
def pyLower (s : String) : String := String.mk (s.data.map Char.toLower)

/-- Python whitespace (`str.strip()` set, ASCII part). -/
def pyIsSpace (c : Char) : Bool :=
  c = ' ' || c = '\t' || c = '\n' || c = '\r' || c = '\x0b' || c = '\x0c'

/-- Python `str.strip()`. -/
def pyStrip (s : String) : String :=
  String.mk (((s.data.dropWhile pyIsSpace).reverse.dropWhile pyIsSpace).reverse)

/-- Python `str.startswith(p)`. -/
def pyStartsWith (s p : String) : Bool := p.data.isPrefixOf s.data

/-- Python `sep.join(xs)` for `sep = ", "`. -/
def pyJoin (sep : String) : List String → String
  | [] => ""
  | [x] => x
  | x :: xs => x ++ sep ++ pyJoin sep xs

/-- One step of insertion sort: insert `a` before the first element `b`
with `le a b`. -/
def pySortInsert (le : α → α → Bool) (a : α) : List α → List α
  | [] => [a]
  | b :: l => if le a b then a :: b :: l else b :: pySortInsert le a l

/-- Stable insertion sort.  CPython's `list.sort`/`sorted` is a stable
sort; for a non-strict total `le`, any two stable sorts agree, and
insertion sort with a non-strict `le` is stable — so this models Python's
sort faithfully.  (It is structurally recursive, so concrete witnesses
evaluate by kernel reduction, unlike `List.mergeSort`.) -/
def pySort (le : α → α → Bool) : List α → List α
  | [] => []
  | a :: l => pySortInsert le a (pySort le l)

theorem pySortInsert_perm (le : α → α → Bool) (a : α) (l : List α) :
    (pySortInsert le a l).Perm (a :: l) := by
  induction l with
  | nil => exact List.Perm.refl _
  | cons b t ih =>
    simp only [pySortInsert]
    split
    · exact List.Perm.refl _
    · exact (List.Perm.cons b ih).trans (List.Perm.swap a b t)

theorem pySort_perm (le : α → α → Bool) (l : List α) : (pySort le l).Perm l := by
  induction l with
  | nil => exact List.Perm.refl _
  | cons a t ih =>
    exact (pySortInsert_perm le a (pySort le t)).trans (List.Perm.cons a ih)

/-- `_normalize_opus_pc_id` — identical helper in `cash_transfer_tool.py`
(lines 30–44) and `code_history_tool.py` (lines 68–86): normalize loose Opus
id formats to `PC-XXXXXX`; `None`/blank input gives `None`; an input with no
digits is returned as stripped. -/
def _normalize_opus_pc_id (raw : Option String) : Option String :=
  match raw with
  | none => none
  | some raw₀ =>
    let s := pyStrip raw₀
    if s = "" then none
    else if pyStartsWith (pyUpper s) "PC-" then some s
    else
      let digits := String.mk (s.toList.filter Char.isDigit)
      if digits = "" then some s
      else
        let digits' := if digits.length < 6 then zfill 6 digits else digits
        some ("PC-" ++ digits')

end Birla

/-! ## Account Block Evaluator — `src/tools/account_block_status.py` -/

namespace Birla.AccountBlock

/-- The matched CSV row of `mock_extended.csv`, restricted to the fields the
decision portion of `check_account_block_status` reads (lines 146–155).
`block_status`/`block_through`/`block_status_date` keep the `Option` shape of
`dict.get`. -/
structure Row where
  block_status : Option String
  block_status_date : Option String
  block_through : Option String
  deriving Repr, DecidableEq

/-- The ordered format list tried by `_parse_block_date` (lines 41–47). -/
def fmts : List String :=
  ["%d/%m/%y %H:%M", "%d/%m/%Y %H:%M", "%d/%m/%y", "%Y-%m-%d %H:%M:%S", "%Y-%m-%d"]

/-- `_parse_block_date` (lines 36–53): `None`/empty input parses to `None`;
otherwise the stripped string is tried against each format in order and the
first success wins.  `strptime s fmt` is the embedding of
`datetime.strptime(s, fmt)` (`none` = `ValueError`). -/
def _parse_block_date (strptime : String → String → Option Nat)
    (value : Option String) : Option Nat :=
  match value with
  | none => none
  | some v =>
    if v = "" then none
    else
      let s := pyStrip v
      (fmts.filterMap (fun fmt => strptime s fmt)).head?

/-- One advice dictionary appended by `check_account_block_status`. -/
inductive Advice where
  | notBlocked
  | waitUntil48Hours (reason : Option String)
      (expectedUnblockAt expectedUnblockDate : Option String)
      (nextAction : String)
  | guideScanPractices
  | guideOtpPractices
  | raiseComplaintOver48Hours (timelineDays : Nat) (nextAction : String)
  | raiseComplaintManualBlock (tsmDecision : Bool) (timelineDays : Nat) (nextAction : String)
  | raiseComplaintPermanentBlock (timelineDays : Nat) (nextAction : String)
  | unknownBlockStatus (nextAction : String)
  deriving Repr, DecidableEq

/-- The decision-relevant part of the dictionary returned on the
`matched_row` path (lines 257–279): echo fields (`query`, `customer`, the
raw `block` block) are omitted. -/
structure Result where
  recommendation : Option String
  message : String
  advice : List Advice
  hoursSinceBlock : Option Int
  expectedAutoUnblockAt : Option String
  deriving Repr, DecidableEq

/-- `_status_label` (lines 56–63). -/
def _status_label (code : String) : String :=
  if pyUpper code = "U" then "Unblocked"
  else if pyUpper code = "A" then "Automatic Block"
  else if pyUpper code = "M" then "Manual Block"
  else if pyUpper code = "P" then "Permanent Block"
  else "Unknown"

/-- `_block_through_label` (lines 66–74). -/
def _block_through_label (code : Option String) : Option String :=
  if !optTruthy code then none
  else
    let c := pyUpper (pyStrip (strOr code))
    if c = "O" then some "OTP related activity"
    else if c = "S" then some "Suspicious/Incorrect scans"
    else none

/-- Decision kernel of `check_account_block_status` (lines 146–279), from the
point where a customer row has been matched.  `now` is `datetime.now()`;
`fmtAt`/`fmtDate` embed `strftime("%Y-%m-%d %H:%M")` / `strftime("%Y-%m-%d")`;
`toStr` embeds Python `str()` on the hour count inside the f-string. -/
def check_account_block_status (strptime : String → String → Option Nat)
    (fmtAt fmtDate : Nat → String) (now : Nat) (row : Row) : Result :=
  let block_status := pyUpper (pyStrip (strOr row.block_status))
  let block_through :=
    let bt := pyUpper (pyStrip (strOr row.block_through))
    if bt = "" then none else some bt
  let block_dt := _parse_block_date strptime row.block_status_date
  let hours_since_block : Option Int :=
    Option.map (fun tb : Nat => Int.fdiv ((now : Int) - (tb : Int)) 3600) block_dt
  let expected_auto_unblock_at : Option String :=
    block_dt.map (fun t => fmtAt (t + 48 * 3600))
  let expected_auto_unblock_date : Option String :=
    block_dt.map (fun t => fmtDate (t + 48 * 3600))
  let through_label := _block_through_label block_through
  if block_status = "U" ∨ block_status = "" then
    { recommendation := some "none"
      message := "Account is currently not blocked."
      advice := [.notBlocked]
      hoursSinceBlock := hours_since_block
      expectedAutoUnblockAt := expected_auto_unblock_at }
  else if block_status = "A" then
    match hours_since_block with
    | none =>
      { recommendation := some "wait"
        message := "Account is automatically blocked. Exact block time is unavailable; advise waiting up to 48 hours."
        advice := [.waitUntil48Hours none none none "create_enquiry_tool"]
        hoursSinceBlock := none
        expectedAutoUnblockAt := expected_auto_unblock_at }
    | some h =>
      if h < 48 then
        let reason_msg :=
          if block_through = some "S" then "due to multiple incorrect scans"
          else if block_through = some "O" then "due to OTP-related activity"
          else "automatically"
        { recommendation := some "wait"
          message := "Account was auto-blocked " ++ toString h ++ " hour(s) ago "
            ++ reason_msg ++ ". It should auto-unblock by "
            ++ strOr expected_auto_unblock_at
            ++ ". Please wait until 48 hours are complete."
          advice :=
            [.waitUntil48Hours through_label expected_auto_unblock_at
                expected_auto_unblock_date "create_enquiry_tool"]
            ++ (if block_through = some "S" then [.guideScanPractices] else [])
            ++ (if block_through = some "O" then [.guideOtpPractices] else [])
          hoursSinceBlock := some h
          expectedAutoUnblockAt := expected_auto_unblock_at }
      else
        { recommendation := some "complaint"
          message := "Automatic block has exceeded 48 hours. Raise a complaint so the backend team can investigate; resolution within 7 days."
          advice := [.raiseComplaintOver48Hours 7 "create_complaint_tool"]
          hoursSinceBlock := some h
          expectedAutoUnblockAt := expected_auto_unblock_at }
  else if block_status = "M" then
    let whenStr := match block_dt with
      | some t => fmtDate t
      | none => "the recorded date"
    { recommendation := some "complaint"
      message := "Account is manually blocked by backend on " ++ whenStr
        ++ ". It does not auto-unblock. Raising a complaint; final decision rests with the TSM."
      advice := [.raiseComplaintManualBlock true 7 "create_complaint_tool"]
      hoursSinceBlock := hours_since_block
      expectedAutoUnblockAt := expected_auto_unblock_at }
  else if block_status = "P" then
    { recommendation := some "complaint"
      message := "Account is permanently blocked (usually after multiple auto-bans). Raising a complaint for backend investigation; expected resolution within 7 days."
      advice := [.raiseComplaintPermanentBlock 7 "create_complaint_tool"]
      hoursSinceBlock := hours_since_block
      expectedAutoUnblockAt := expected_auto_unblock_at }
  else
    { recommendation := some "complaint"
      message := "Block status is unknown. Raising an investigation complaint is recommended."
      advice := [.unknownBlockStatus "create_complaint_tool"]
      hoursSinceBlock := hours_since_block
      expectedAutoUnblockAt := expected_auto_unblock_at }

end Birla.AccountBlock

/-! ## KYC Timeline Evaluator — `src/tools/kyc_status_checker.py` -/

namespace Birla.Kyc

/-- The matched CSV row of `mock.csv`, restricted to the fields the
evaluator reads (lines 46–51).  `data_created` is the already-parsed
`int(row.get('data_created', 0))`. -/
structure Row where
  kyc_status : String
  is_aadhar_added : String
  is_pan_added : String
  is_bank_added : String
  is_upi_added : String
  data_created : Int
  deriving Repr, DecidableEq

/-- Decision-relevant part of the returned dictionary (lines 97–122). -/
structure Result where
  recommendation : String
  message : String
  kycStatusDescription : String
  documentsStatus : Bool × Bool × Bool × Bool
  daysRemainingForApproval : Option Int
  timelineExceeded : Bool
  deriving Repr, DecidableEq

/-- Decision kernel of `kyc_status_checker_tool` (lines 45–122), from the
point where a customer row has been matched. -/
def kyc_status_checker (row : Row) : Result :=
  let is_aadhar := pyLower row.is_aadhar_added = "true"
  let is_pan := pyLower row.is_pan_added = "true"
  let is_bank := pyLower row.is_bank_added = "true"
  let is_upi := pyLower row.is_upi_added = "true"
  let days := row.data_created
  let recMsg : String × String :=
    if row.kyc_status = "F" then
      let days_remaining := max 0 (30 - days)
      if days ≤ 30 then
        ("within_timeline",
         "KYC is done dont you need to wait " ++ toString days_remaining ++ " days")
      else
        ("timeline_exceeded",
         "KYC completion 30 days passed. Contact TSM or raise a complaint.")
    else if row.kyc_status = "P" then
      let missing :=
        (if !is_aadhar then ["Aadhar"] else [])
        ++ (if !is_pan then ["PAN"] else [])
        ++ (if !is_bank then ["Bank Details"] else [])
        ++ (if !is_upi then ["UPI"] else [])
      ("partial_kyc",
       "KYC is not complete. Please complete " ++ pyJoin ", " missing)
    else if row.kyc_status = "R" then
      ("kyc_rejected", "KYC is rejected. Please submit documents again.")
    else if row.kyc_status = "N" then
      ("kyc_not_started", "KYC is not started. Please complete KYC process.")
    else
      ("unknown_status", "KYC status unclear. Please check with technical team.")
  { recommendation := recMsg.1
    message := recMsg.2
    kycStatusDescription :=
      if row.kyc_status = "F" then "Full KYC Complete"
      else if row.kyc_status = "P" then "Partial KYC"
      else if row.kyc_status = "R" then "KYC Rejected"
      else if row.kyc_status = "N" then "KYC Not Started"
      else "Unknown"
    documentsStatus := (is_aadhar, is_pan, is_bank, is_upi)
    daysRemainingForApproval :=
      if row.kyc_status = "F" then some (max 0 (30 - days)) else none
    timelineExceeded := days > 30 ∧ row.kyc_status = "F" }

end Birla.Kyc

/-! ## Redemption Eligibility Evaluator — `src/tools/cash_transfer_tool.py` -/

namespace Birla.CashTransfer

/-- A row of `point_history.csv`, restricted to the fields
`_compute_point_balance` reads (lines 96–153). -/
structure PointRow where
  opus_pc_id : String
  balance : String
  point_cr_db : String
  method : String
  created_at : String
  deriving Repr, DecidableEq

/-- A row of `cash_transfer.csv`, restricted to the fields
`get_cash_transfer_history` reads. -/
structure CashRow where
  id : String
  transaction_id : String
  transfer_id : String
  opus_pc_id : String
  ty : String          -- the `type` column
  points : String
  status : String
  reason : String
  reason_message : String
  created_at : String
  updated_at : String
  deriving Repr, DecidableEq

/-- The two patterns tried by `_parse_dt` (lines 61–77). -/
def cash_fmts : List String := ["%d/%m/%y %H:%M:%S", "%d/%m/%y %H:%M"]

/-- `_parse_dt` (lines 61–77): blank input gives `None`; otherwise the
stripped string is tried against the two patterns in order.  `strptime` is
the embedding of `datetime.strptime` (`none` = `ValueError`). -/
def _parse_dt (strptime : String → String → Option Nat) (value : String) : Option Nat :=
  if value = "" then none
  else
    let v := pyStrip value
    if v = "" then none
    else (cash_fmts.filterMap (fun p => strptime v p)).head?

/-- `_safe_int` (lines 87–93): `None`/`""` gives `0`, otherwise
`int(float(value))` with `0` on failure; `str_to_int` embeds
`int(float(·))` (`none` = exception). -/
def _safe_int (str_to_int : String → Option Int) (value : Option String) : Int :=
  match value with
  | none => 0
  | some v => if v = "" then 0 else (str_to_int v).getD 0

/-- Result record of `_compute_point_balance` (lines 103–107). -/
structure BalanceResult where
  balance : Option Int
  source : Option String
  asOf : Option String
  deriving Repr, DecidableEq

/-- The `point_history.csv` rows of one account (filter of lines 115–119). -/
def ledgerRows (pointTable : List PointRow) (opus_pc_id : String) : List PointRow :=
  pointTable.filter (fun r => pyStrip r.opus_pc_id = opus_pc_id)

/-- The ledger rows of an account sorted by `created_at` descending
(line 128; stable, parse failures as `datetime.min = 0`). -/
def sortedLedger (strptime : String → String → Option Nat)
    (pointTable : List PointRow) (opus_pc_id : String) : List PointRow :=
  pySort (fun a b =>
      (_parse_dt strptime b.created_at).getD 0 ≤ (_parse_dt strptime a.created_at).getD 0)
    (ledgerRows pointTable opus_pc_id)

/-- The fallback loop of `_compute_point_balance` (lines 140–149): fold
over the rows, adding credit (`C`) amounts and subtracting debit (`D`)
amounts. -/
def computedSum (str_to_int : String → Option Int) (l : List PointRow) : Int :=
  l.foldl (fun acc r =>
    let points := _safe_int str_to_int (some r.point_cr_db)
    let method := pyUpper (pyStrip r.method)
    if method = "C" then acc + points
    else if method = "D" then acc - points
    else acc) 0

/-- `_compute_point_balance` (lines 96–153): filter `point_history.csv` to
the account, sort by `created_at` descending, return the first non-blank
`balance` snapshot if one exists, else the signed credit/debit sum. -/
def _compute_point_balance (strptime : String → String → Option Nat)
    (str_to_int : String → Option Int)
    (pointTable : List PointRow) (opus_pc_id : String) : BalanceResult :=
  let rows := ledgerRows pointTable opus_pc_id
  if rows.isEmpty then
    { balance := none, source := none, asOf := none }
  else
    let sorted := sortedLedger strptime pointTable opus_pc_id
    match sorted.find? (fun r => pyStrip r.balance ≠ "") with
    | some r =>
      { balance := some (_safe_int str_to_int (some (pyStrip r.balance)))
        source := some "balance_field"
        asOf := some r.created_at }
    | none =>
      { balance := some (computedSum str_to_int sorted)
        source := some "computed"
        asOf := sorted.head?.map (·.created_at) }

/-- Strict lexicographic order on `_sort_key` tuples (lines 156–170);
`none` (unparseable) sorts below every parsed datetime. -/
def optNatLt : Option Nat → Option Nat → Bool
  | none, some _ => true
  | none, none => false
  | some _, none => false
  | some a, some b => a < b

/-- `_sort_key` (lines 156–170): `(updated_at or created_at, created_at, id)`. -/
def cashKey (strptime : String → String → Option Nat)
    (str_to_int : String → Option Int) (r : CashRow) :
    Option Nat × Option Nat × Int :=
  ((_parse_dt strptime r.updated_at).orElse (fun _ => _parse_dt strptime r.created_at),
   _parse_dt strptime r.created_at,
   _safe_int str_to_int (some r.id))

/-- Strict lexicographic comparison of two `_sort_key` tuples.  (CPython
raises `TypeError` when a parse failure meets a parsed datetime inside a
key tuple; the embedding totalizes that comparison with `none` smallest —
no claim below depends on the relative order of such rows.) -/
def keyLt : Option Nat × Option Nat × Int → Option Nat × Option Nat × Int → Bool
  | (a₁, a₂, a₃), (b₁, b₂, b₃) =>
    optNatLt a₁ b₁ ||
      (a₁ == b₁ && (optNatLt a₂ b₂ || (a₂ == b₂ && decide (a₃ < b₃))))

/-- One advice dictionary appended by `get_cash_transfer_history`
(lines 338–355, 390–397). -/
inductive CashAdvice where
  | insufficientPoints (firstTime : Bool)
      (requiredMinPoints currentBalance missingPoints : Int) (nextAction : String)
  | pointsSufficient (firstTime : Bool)
      (requiredMinPoints currentBalance : Int) (nextAction : String)
  | paymentNotAccepted (status statusLabel reasonMessage reason createdAt : String)
  deriving Repr, DecidableEq

/-- The `redemption_eligibility` block of the returned dictionary
(lines 413–422). -/
structure RedemptionEligibility where
  isFirstRedemption : Bool
  requiredMinPoints : Int
  currentBalance : Int
  meetsMinRequirement : Bool
  missingPoints : Int
  latestSuccessfulTransfer : Option CashRow
  successfulTransferCount : Nat
  message : String
  deriving Repr, DecidableEq

/-- Decision-relevant part of the dictionary returned by
`get_cash_transfer_history` (lines 402–425).  The spoken-message assembly
(lines 295–311, 399–400), the `entries` projection and the `summary` counts
are verbatim echoes of row fields and are omitted; every field a claim
references is present. -/
structure CashResult where
  opusPcId : String
  totalRecords : Nat
  pointBalance : Option Int
  pointBalanceSource : Option String
  redemption : RedemptionEligibility
  advice : List CashAdvice
  latestNonAccepted : Option CashRow
  deriving Repr, DecidableEq

/-- `STATUS_LABELS` lookup (lines 53–58) with default `"Unknown"`. -/
def statusLabel (code : String) : String :=
  if code = "P" then "Pending"
  else if code = "Y" then "Success"
  else if code = "N" then "Failed"
  else if code = "R" then "Rejected"
  else "Unknown"

/-- The `cash_transfer.csv` rows of one account (filter of lines 251–256). -/
def cashRowsFor (cashTable : List CashRow) (target : String) : List CashRow :=
  cashTable.filter (fun r => pyStrip r.opus_pc_id = target)

/-- The account's transfer rows sorted by `_sort_key` descending
(line 261; stable). -/
def sortedCashRows (strptime : String → String → Option Nat)
    (str_to_int : String → Option Int)
    (cashTable : List CashRow) (target : String) : List CashRow :=
  pySort (fun a b =>
      ! keyLt (cashKey strptime str_to_int a) (cashKey strptime str_to_int b))
    (cashRowsFor cashTable target)

/-- `any_success_rows` (line 316): every transfer of the account whose
status is `Y`, over the *full* filtered row set, not the `limit` window. -/
def anySuccessRows (strptime : String → String → Option Nat)
    (str_to_int : String → Option Int)
    (cashTable : List CashRow) (target : String) : List CashRow :=
  (sortedCashRows strptime str_to_int cashTable target).filter
    (fun r => pyUpper (pyStrip r.status) = "Y")

/-- The `redemption_eligibility` computation (lines 313–361, 413–422):
first-time vs repeat classification, 5000/500 threshold, balance check and
shortfall. -/
def redemptionOf (strptime : String → String → Option Nat)
    (str_to_int : String → Option Int)
    (cashTable : List CashRow) (pointTable : List PointRow)
    (target : String) : RedemptionEligibility :=
  let any_success_rows := anySuccessRows strptime str_to_int cashTable target
  let is_first_redemption := any_success_rows.length = 0
  let required_min_points : Int := if is_first_redemption then 5000 else 500
  let point_balance := _compute_point_balance strptime str_to_int pointTable target
  let current_balance := point_balance.balance.getD 0
  let meets_min_requirement := current_balance ≥ required_min_points
  let missing_points :=
    if current_balance < required_min_points
    then required_min_points - current_balance else 0
  let latest_success :=
    (pySort (fun a b =>
        (_parse_dt strptime b.created_at).getD 0 ≤ (_parse_dt strptime a.created_at).getD 0)
      any_success_rows).head?
  { isFirstRedemption := is_first_redemption
    requiredMinPoints := required_min_points
    currentBalance := current_balance
    meetsMinRequirement := meets_min_requirement
    missingPoints := missing_points
    latestSuccessfulTransfer := latest_success
    successfulTransferCount := any_success_rows.length
    message :=
      "Balance " ++ toString current_balance ++ ". Minimum required is "
        ++ toString required_min_points ++ " ("
        ++ (if is_first_redemption then "first" else "repeat")
        ++ " redemption). Status: "
        ++ (if meets_min_requirement then "Eligible"
            else "Insufficient by " ++ toString missing_points ++ " points")
        ++ "." }

/-- Decision kernel of `get_cash_transfer_history` (lines 232–428): filter
`cash_transfer.csv` to the normalized account id, sort descending by
`_sort_key`, classify first-time vs repeat redemption over the *full*
filtered row set, compute threshold/eligibility/shortfall against the
point balance, and build the advice list. -/
def get_cash_transfer_history (strptime : String → String → Option Nat)
    (str_to_int : String → Option Int)
    (cashTable : List CashRow) (pointTable : List PointRow)
    (opus_pc_id : Option String) (limit : Int) : Except String CashResult :=
  match _normalize_opus_pc_id opus_pc_id with
  | none => .error "opus_pc_id is required"
  | some target =>
    let rows := cashRowsFor cashTable target
    let sortedRows := sortedCashRows strptime str_to_int cashTable target
    let lim : Int := if limit = 0 then 3 else max 1 limit
    let limited := sortedRows.take lim.toNat
    let red := redemptionOf strptime str_to_int cashTable pointTable target
    let latest_non_accepted :=
      if red.meetsMinRequirement ∧ ¬ rows.isEmpty then
        sortedRows.find? (fun r =>
          let st := pyUpper (pyStrip r.status)
          st = "P" ∨ st = "N" ∨ st = "R")
      else none
    let advice₀ : List CashAdvice :=
      if !red.meetsMinRequirement then
        [.insufficientPoints red.isFirstRedemption red.requiredMinPoints
          red.currentBalance red.missingPoints
          "create_enquiry_for_minimum_points_guidance"]
      else
        [.pointsSufficient red.isFirstRedemption red.requiredMinPoints
          red.currentBalance "proceed_with_redemption_checks"]
    let advice := advice₀ ++
      (match latest_non_accepted with
       | some r =>
         [.paymentNotAccepted (pyUpper (pyStrip r.status))
            (statusLabel (pyUpper (pyStrip r.status)))
            r.reason_message r.reason r.created_at]
       | none => [])
    .ok
      { opusPcId := target
        totalRecords := limited.length
        pointBalance := (_compute_point_balance strptime str_to_int pointTable target).balance
        pointBalanceSource := (_compute_point_balance strptime str_to_int pointTable target).source
        redemption := red
        advice := advice
        latestNonAccepted := latest_non_accepted }

end Birla.CashTransfer

/-! ## Scan History Evaluator — `src/tools/code_history_tool.py` -/

namespace Birla.CodeHistory

/-- A row of `code_history.csv`, restricted to the fields
`query_code_history` reads for its decisions.  (The remaining columns —
`category_id`, `pack_code`, `product_code`, audit columns — are copied
verbatim into `entries` and are omitted.) -/
structure CodeRow where
  id : String
  opus_pc_id : String
  coupon_code : String
  coupon_type : String
  status : String
  earn_point : String
  created_at : String
  updated_at : String
  deriving Repr, DecidableEq

/-- A row of `code_history_reference.csv`, restricted to the decision
fields (`scan_from`, `pincode`, image/url columns are echo-only). -/
structure RefRow where
  code_history_id : String
  propix_response : String
  scan_method : String
  deriving Repr, DecidableEq

/-- `STATUS_LABELS` (lines 50–65) with the `"Unknown"` default applied. -/
def statusLabel (code : String) : String :=
  if code = "Y" then "Success"
  else if code = "N" then "Invalid (not found on server)"
  else if code = "A" then "Already Used"
  else if code = "E" then "Expired"
  else if code = "P" then "Pending (user/badge pending)"
  else if code = "R" then "Rejected (Badge Approval)"
  else if code = "G" then "Geo Restricted (near contractor location)"
  else if code = "U" then "Unmapped Loyalty Product Points"
  else if code = "X" then "Deactivated (Self-Enrollment)"
  else if code = "Z" then "Rejected (Self-Enrollment)"
  else if code = "V" then "Inactive"
  else if code = "I" then "Invalid"
  else if code = "B" then "Non-Birla Opus Entry"
  else if code = "O" then "Outer container loyalty code"
  else "Unknown"

/-- `_parse_dt` (lines 89–95): single format `"%Y-%m-%d %H:%M:%S"`. -/
def _parse_dt (strptime : String → String → Option Nat) (value : String) : Option Nat :=
  if value = "" then none else strptime value "%Y-%m-%d %H:%M:%S"

/-- `_to_int` (lines 98–105): `None`/`""` gives `0`, else `int(float(v))`
with `0` on failure. -/
def _to_int (str_to_int : String → Option Int) (value : String) : Int :=
  if value = "" then 0 else (str_to_int value).getD 0

/-- `_sort_key` (lines 133–138): `(updated_at or created_at, created_at)`. -/
def codeKey (strptime : String → String → Option Nat) (r : CodeRow) :
    Option Nat × Option Nat :=
  ((_parse_dt strptime r.updated_at).orElse (fun _ => _parse_dt strptime r.created_at),
   _parse_dt strptime r.created_at)

/-- Strict lexicographic comparison of `_sort_key` pairs (see the remark on
`Birla.CashTransfer.keyLt` about CPython and `None` keys). -/
def codeKeyLt : Option Nat × Option Nat → Option Nat × Option Nat → Bool
  | (a₁, a₂), (b₁, b₂) =>
    CashTransfer.optNatLt a₁ b₁ || (a₁ == b₁ && CashTransfer.optNatLt a₂ b₂)

/-- `ref_map.get(key, [])` where the map was built keyed by stripped
`code_history_id`, skipping blank keys (lines 30–46). -/
def refLookup (refTable : List RefRow) (key : String) : List RefRow :=
  if key = "" then [] else refTable.filter (fun r => pyStrip r.code_history_id = key)

/-- Ascending sort key `dt` used by the ownership check (lines 321–324):
`created_at or updated_at`, with parse failures as `datetime.min = 0`. -/
def dtKeyAsc (strptime : String → String → Option Nat) (r : CodeRow) : Nat :=
  (((_parse_dt strptime r.created_at).orElse
      (fun _ => _parse_dt strptime r.updated_at))).getD 0

/-- The `for r in prior_rows_sorted` loop of the ownership check
(lines 326–333): walk the ascending history, remembering the first
Success/AlreadyUsed row owned by the caller (`own_prior`) and the first one
owned by anyone else (`other_prior`). -/
def scanLoop (caller_id : Option String) :
    List CodeRow → Option CodeRow × Option CodeRow → Option CodeRow × Option CodeRow
  | [], acc => acc
  | r :: rest, (own, other) =>
    if r.status = "Y" ∨ r.status = "A" then
      let rid_owner := _normalize_opus_pc_id (some r.opus_pc_id)
      if optTruthy caller_id ∧ rid_owner = caller_id ∧ own = none then
        scanLoop caller_id rest (some r, other)
      else if other = none ∧ (¬ optTruthy caller_id ∨ rid_owner ≠ caller_id) then
        scanLoop caller_id rest (own, some r)
      else
        scanLoop caller_id rest (own, other)
    else
      scanLoop caller_id rest (own, other)

/-- One advice dictionary appended by `query_code_history`. -/
inductive CodeAdvice where
  | wrongCodeType (userType expectedType actualType message : String)
  | duplicateScanBySameUser (scannedAt couponCode : String)
  | createComplaintForFraudScan (couponCode : String) (scannedBy : Option String)
      (scannedAt : String) (nextAction : String)
  | adviseWait (waitDays : Nat) (hint nextAction : String)
  | geoRestricted (radiusM : Nat)
  | rejectedProfile (requiresKycCheck : Bool) (nextAction suggestContact : String)
  | cameraUsedNoManualTry (nextAction : String)
  | cameraUsedAndManualTried
  | referenceStatusMismatch (expectedStatus actualStatus hint : String)
  | expectedCouponTypeIFor500 (actualCouponType : String)
  | server500WithCodePresent (note : String)
  | couponTypeLengthMismatch (couponType derivedType : String) (couponCodeLength : Nat)
  deriving Repr, DecidableEq

/-- Decision-relevant part of the dictionary returned by
`query_code_history` (lines 489–508).  `entries` (verbatim row/reference
projections via `_row_to_entry`), `summary.counts_by_status` and
`summary.date_range` are echoes and are omitted; `latest_entry` is
represented by the head of the limited row list, whose fields
`_row_to_entry` copies unchanged. -/
structure CodeResult where
  message : String
  advice : List CodeAdvice
  requiresKycCheck : Bool
  latestStatus : String
  totalRecords : Nat
  loyaltyPointsEarned : Int
  cashPointsEarned : Int
  couponCodeLength : Nat
  derivedType : Option String
  deriving Repr, DecidableEq

/-- The query parameters of `query_code_history` (lines 141–148). -/
structure Query where
  opus_pc_id : Option String
  coupon_code : Option String
  limit : Option Int
  order : Option String
  user_type : Option String
  caller_opus_pc_id : Option String
  deriving Repr, DecidableEq

/-- The fixed message texts of `query_code_history`. -/
def mismatchText : String :=
  "Incorrect code type. Contractors must scan the outside Loyalty code (12-digit, L); Painters must scan the inside Cash code (13-digit, C)."

def pendingText : String :=
  "The code is not yet updated in our database. Please try scanning again after 2–3 days."

def geoText : String :=
  "Geo restricted due to contractor location. Please scan from a location more than 22 meters away."

def rejectedText : String :=
  "Profile appears rejected. First verify KYC is complete; if KYC is complete, create a complaint and suggest contacting the TSM."

def expiredText : String :=
  "The code has expired. Points cannot be credited."

def manualText : String :=
  "The code was scanned using the camera and no manual entry from this user is found. Please enter the code manually in the app and call back if the issue persists."

def fraudText : String :=
  "This code was scanned by another user. I recommend creating a complaint; our technical team will resolve within 7 days."

/-- `already scanned by you` message (lines 343–345). -/
def ownText (when : String) : String :=
  "This code was already scanned by you on " ++ when ++ ". Each code can be scanned only once."

/-- The rows matching the query filters (lines 179–187): exact equality
against the raw query values, each filter active only when its parameter
is truthy. -/
def matchingRows (codeTable : List CodeRow) (q : Query) : List CodeRow :=
  codeTable.filter (fun r =>
    (!optTruthy q.opus_pc_id || r.opus_pc_id == strOr q.opus_pc_id)
    && (!optTruthy q.coupon_code || r.coupon_code == strOr q.coupon_code))

/-- `code_rows` (lines 189–196): the complete history of the code,
gathered only when a coupon code was given. -/
def codeRowsOf (codeTable : List CodeRow) (q : Query) : List CodeRow :=
  if optTruthy q.coupon_code then
    codeTable.filter (fun r => r.coupon_code == strOr q.coupon_code)
  else []

/-- The matched rows sorted by `_sort_key` (line 209), descending unless
`order` is `asc` (default `desc`). -/
def sortedRowsOf (strptime : String → String → Option Nat)
    (codeTable : List CodeRow) (q : Query) : List CodeRow :=
  if pyLower (q.order.getD "desc") ≠ "asc" then
    pySort (fun a b => ! codeKeyLt (codeKey strptime a) (codeKey strptime b))
      (matchingRows codeTable q)
  else
    pySort (fun a b => ! codeKeyLt (codeKey strptime b) (codeKey strptime a))
      (matchingRows codeTable q)

/-- `limited_rows` (line 212): `rows[:max(1, limit)] if limit else rows`
with `limit` defaulting to 50. -/
def limitedRowsOf (strptime : String → String → Option Nat)
    (codeTable : List CodeRow) (q : Query) : List CodeRow :=
  if q.limit.getD 50 = 0 then sortedRowsOf strptime codeTable q
  else (sortedRowsOf strptime codeTable q).take (max 1 (q.limit.getD 50)).toNat

/-- `latest_entry` (line 285; `_row_to_entry` copies the row fields
unchanged, so the head row stands for the head entry). -/
def latestEntryOf (strptime : String → String → Option Nat)
    (codeTable : List CodeRow) (q : Query) : Option CodeRow :=
  (limitedRowsOf strptime codeTable q).head?

/-- `latest_status` (line 255). -/
def latestStatusOf (strptime : String → String → Option Nat)
    (codeTable : List CodeRow) (q : Query) : String :=
  ((limitedRowsOf strptime codeTable q).head?.map (·.status)).getD ""

/-- `caller_id` (line 284). -/
def callerIdOf (q : Query) : Option String :=
  _normalize_opus_pc_id (optOrStr q.caller_opus_pc_id q.opus_pc_id)

/-- `code_len` (line 288). -/
def codeLenOf (strptime : String → String → Option Nat)
    (codeTable : List CodeRow) (q : Query) : Nat :=
  match latestEntryOf strptime codeTable q with
  | some e => if e.coupon_code ≠ "" then e.coupon_code.length else 0
  | none => 0

/-- `derived_type` (line 289): 12 digits ⇒ Loyalty, 13 ⇒ Cash. -/
def derivedTypeOf (strptime : String → String → Option Nat)
    (codeTable : List CodeRow) (q : Query) : Option String :=
  if codeLenOf strptime codeTable q = 12 then some "L"
  else if codeLenOf strptime codeTable q = 13 then some "C" else none

/-- Rule 1 — role/code-type mismatch (lines 291–309): the primary-message
candidate and the advice it contributes. -/
def mismatchPairOf (strptime : String → String → Option Nat)
    (codeTable : List CodeRow) (q : Query) : Option String × List CodeAdvice :=
  match q.user_type, latestEntryOf strptime codeTable q with
  | some ut, some e =>
    if ut ≠ "" then
      let utn := pyUpper (pyStrip ut)
      let expected :=
        if utn = "CONTRACTOR" then some "L"
        else if utn = "PAINTER" then some "C" else none
      match expected with
      | some exp =>
        let actual :=
          if e.coupon_type ≠ "" then some e.coupon_type
          else derivedTypeOf strptime codeTable q
        match actual with
        | some act =>
          if act ≠ exp then
            (some mismatchText, [.wrongCodeType utn exp act mismatchText])
          else (none, [])
        | none => (none, [])
      | none => (none, [])
    else (none, [])
  | _, _ => (none, [])

/-- `prior_rows_sorted` (line 324): the complete code history sorted
ascending by the `dt` key. -/
def ascCodeRowsOf (strptime : String → String → Option Nat)
    (codeTable : List CodeRow) (q : Query) : List CodeRow :=
  pySort (fun a b => dtKeyAsc strptime a ≤ dtKeyAsc strptime b)
    (codeRowsOf codeTable q)

/-- Rule 2 — ownership / duplicate-scan check (lines 311–363). -/
def ownershipPairOf (strptime : String → String → Option Nat)
    (codeTable : List CodeRow) (q : Query) : Option String × List CodeAdvice :=
  if optTruthy q.coupon_code ∧ (latestEntryOf strptime codeTable q).isSome then
    if latestStatusOf strptime codeTable q = "A"
        ∨ latestStatusOf strptime codeTable q = "Y" then
      let caller_id := callerIdOf q
      let prior_sorted := ascCodeRowsOf strptime codeTable q
      let pair := scanLoop caller_id prior_sorted (none, none)
      let latest_owner :=
        (latestEntryOf strptime codeTable q).bind
          (fun e => _normalize_opus_pc_id (some e.opus_pc_id))
      let own_prior :=
        if pair.1 = none ∧ optTruthy latest_owner ∧ caller_id = latest_owner
        then (limitedRowsOf strptime codeTable q).head? else pair.1
      let other_prior :=
        if pair.2 = none ∧ optTruthy latest_owner ∧ optTruthy caller_id
            ∧ latest_owner ≠ caller_id
        then (limitedRowsOf strptime codeTable q).head? else pair.2
      match own_prior with
      | some r =>
        let when := if r.created_at ≠ "" then r.created_at else r.updated_at
        (some (ownText when),
         [.duplicateScanBySameUser when (strOr q.coupon_code)])
      | none =>
        match other_prior with
        | some r =>
          let when := if r.created_at ≠ "" then r.created_at else r.updated_at
          let who := _normalize_opus_pc_id (some r.opus_pc_id)
          (some fraudText,
           [.createComplaintForFraudScan (strOr q.coupon_code) who when
              "call_create_complaint_tool"])
        | none => (none, [])
    else (none, [])
  else (none, [])

/-- Rule 4 — status-specific guidance (lines 365–400): primary-message
candidate, `requires_kyc_check` flag, contributed advice. -/
def statusTripleOf (strptime : String → String → Option Nat)
    (codeTable : List CodeRow) (q : Query) :
    Option String × Bool × List CodeAdvice :=
  if latestStatusOf strptime codeTable q = "P" then
    (some pendingText, true,
     [.adviseWait 2 "Delay can occur if KYC is incomplete" "optionally_check_kyc_status"])
  else if latestStatusOf strptime codeTable q = "G" then
    (some geoText, false, [.geoRestricted 22])
  else if latestStatusOf strptime codeTable q = "R"
      ∨ latestStatusOf strptime codeTable q = "Z" then
    (some rejectedText, true,
     [.rejectedProfile true "check_kyc_then_create_complaint_if_complete" "TSM"])
  else if latestStatusOf strptime codeTable q = "E" then
    (some expiredText, false, [])
  else (none, false, [])

/-- Rule 3 — camera vs manual guidance (lines 402–433): primary-message
candidate, contributed advice, and the latest reference snapshot. -/
def manualDataOf (strptime : String → String → Option Nat)
    (codeTable : List CodeRow) (refTable : List RefRow) (q : Query) :
    Option String × List CodeAdvice × Option RefRow :=
  if optTruthy q.coupon_code ∧ ¬ (limitedRowsOf strptime codeTable q).isEmpty then
    let latest_cid :=
      pyStrip (((limitedRowsOf strptime codeTable q).head?.map (·.id)).getD "")
    let latest_ref_rows := refLookup refTable latest_cid
    let latest_ref_methods := latest_ref_rows.map (fun ref => pyUpper ref.scan_method)
    let latest_ref := latest_ref_rows.getLast?
    let user_rows := (codeRowsOf codeTable q).filter (fun r =>
      optTruthy (callerIdOf q) && some r.opus_pc_id == callerIdOf q)
    let user_manual_found := user_rows.any (fun r =>
      (refLookup refTable (pyStrip r.id)).any (fun ref => pyUpper ref.scan_method = "M"))
    if latest_ref_methods.contains "C" ∧ ¬ user_manual_found then
      (some manualText, [.cameraUsedNoManualTry "ask_user_manual_entry"], latest_ref)
    else if latest_ref_methods.contains "C" ∧ user_manual_found then
      (none, [.cameraUsedAndManualTried], latest_ref)
    else (none, [], latest_ref)
  else (none, [], none)

/-- Rule 5 — propix-response consistency hints (lines 435–461): the
(possibly 404-overridden) status-slot message and the contributed
advice.  The first component equals the status-specific candidate unless
the latest reference's upstream code is `404 NOT FOUND`, the local status
is not Pending, and no higher-precedence message was selected — in which
case it is replaced by the pending-style text (the `status_message`
reassignment at lines 446–449). -/
def propixDataOf (strptime : String → String → Option Nat)
    (codeTable : List CodeRow) (refTable : List RefRow) (q : Query) :
    Option String × List CodeAdvice :=
  match (manualDataOf strptime codeTable refTable q).2.2 with
  | some lr =>
    let propix := pyUpper lr.propix_response
    let p404 : List CodeAdvice × Option String :=
      if propix = "404 NOT FOUND" ∧ latestStatusOf strptime codeTable q ≠ "P" then
        ([CodeAdvice.referenceStatusMismatch "P" (latestStatusOf strptime codeTable q)
            "Server hasn't updated the code yet (404). Treat as pending."],
         if (mismatchPairOf strptime codeTable q).1 = none
             ∧ (ownershipPairOf strptime codeTable q).1 = none
             ∧ (manualDataOf strptime codeTable refTable q).1 = none
         then some pendingText else none)
      else ([], none)
    let p500 : List CodeAdvice :=
      if propix = "500 ERROR" then
        (if ((latestEntryOf strptime codeTable q).map (·.coupon_type)).getD "" ≠ "I" then
          [CodeAdvice.expectedCouponTypeIFor500
            (((latestEntryOf strptime codeTable q).map (·.coupon_type)).getD "")]
         else [])
        ++
        (if (((latestEntryOf strptime codeTable q).map (·.coupon_code)).getD "") ≠ "" then
          [CodeAdvice.server500WithCodePresent
            "Random/unknown source scans may not have a verifiable coupon code."]
         else [])
      else []
    (match p404.2 with
     | some t => some t
     | none => (statusTripleOf strptime codeTable q).1, p404.1 ++ p500)
  | none => ((statusTripleOf strptime codeTable q).1, [])

/-- Coupon length vs type sanity check (lines 463–471). -/
def lengthAdvOf (strptime : String → String → Option Nat)
    (codeTable : List CodeRow) (q : Query) : List CodeAdvice :=
  match latestEntryOf strptime codeTable q, derivedTypeOf strptime codeTable q with
  | some e, some d =>
    if (e.coupon_type = "L" ∨ e.coupon_type = "C") ∧ e.coupon_type ≠ d then
      [.couponTypeLengthMismatch e.coupon_type d (codeLenOf strptime codeTable q)]
    else []
  | _, _ => []

/-- `loyalty_points_earned` over the limited rows (lines 243–248). -/
def loyaltyPointsOf (strptime : String → String → Option Nat)
    (str_to_int : String → Option Int)
    (codeTable : List CodeRow) (q : Query) : Int :=
  (limitedRowsOf strptime codeTable q).foldl (fun acc r =>
    if r.status = "Y" ∧ r.coupon_type = "L"
    then acc + _to_int str_to_int r.earn_point else acc) 0

/-- `cash_points_earned` over the limited rows (lines 243–250). -/
def cashPointsOf (strptime : String → String → Option Nat)
    (str_to_int : String → Option Int)
    (codeTable : List CodeRow) (q : Query) : Int :=
  (limitedRowsOf strptime codeTable q).foldl (fun acc r =>
    if r.status = "Y" ∧ r.coupon_type = "C"
    then acc + _to_int str_to_int r.earn_point else acc) 0

/-- The generic fallback summary message (lines 483–487). -/
def genericMessageOf (strptime : String → String → Option Nat)
    (str_to_int : String → Option Int)
    (codeTable : List CodeRow) (q : Query) : String :=
  "Latest status: " ++ statusLabel (latestStatusOf strptime codeTable q)
    ++ ". Total scans: " ++ toString (limitedRowsOf strptime codeTable q).length
    ++ ". Earned L:" ++ toString (loyaltyPointsOf strptime str_to_int codeTable q)
    ++ " / C:" ++ toString (cashPointsOf strptime str_to_int codeTable q)
    ++ " points (status=Y)."

/-- Decision kernel of `query_code_history` (lines 141–508), composed of
the rule components above; the final `message` is the precedence chain of
lines 473–487 (note the status slot comes from `propixDataOf`, which
carries the 404 override of lines 446–449). -/
def query_code_history (strptime : String → String → Option Nat)
    (str_to_int : String → Option Int)
    (codeTable : List CodeRow) (refTable : List RefRow)
    (q : Query) : Except String CodeResult :=
  if ¬ optTruthy q.opus_pc_id ∧ ¬ optTruthy q.coupon_code then
    .error "Either opus_pc_id or coupon_code must be provided"
  else if (matchingRows codeTable q).isEmpty then
    .error "No matching scan records found"
  else
    let message :=
      match (mismatchPairOf strptime codeTable q).1 with
      | some m => m
      | none =>
        match (ownershipPairOf strptime codeTable q).1 with
        | some m => m
        | none =>
          match (manualDataOf strptime codeTable refTable q).1 with
          | some m => m
          | none =>
            match (propixDataOf strptime codeTable refTable q).1 with
            | some m => m
            | none => genericMessageOf strptime str_to_int codeTable q
    .ok
      { message := message
        advice := (mismatchPairOf strptime codeTable q).2
          ++ (ownershipPairOf strptime codeTable q).2
          ++ (statusTripleOf strptime codeTable q).2.2
          ++ (manualDataOf strptime codeTable refTable q).2.1
          ++ (propixDataOf strptime codeTable refTable q).2
          ++ lengthAdvOf strptime codeTable q
        requiresKycCheck := (statusTripleOf strptime codeTable q).2.1
        latestStatus := latestStatusOf strptime codeTable q
        totalRecords := (limitedRowsOf strptime codeTable q).length
        loyaltyPointsEarned := loyaltyPointsOf strptime str_to_int codeTable q
        cashPointsEarned := cashPointsOf strptime str_to_int codeTable q
        couponCodeLength := codeLenOf strptime codeTable q
        derivedType := derivedTypeOf strptime codeTable q }

end Birla.CodeHistory


/-! ## Theorems: Account Block Evaluator (C1, C9, C10) -/

namespace Birla.AccountBlock

/-- **C1.** For every Automatic block record with a parseable block
timestamp `t`, letting `H` be the whole number of elapsed hours since the
block (`int((now - t).total_seconds() // 3600)`, i.e. `(now - t).fdiv 3600`):
the evaluator returns recommendation `"wait"` iff `H < 48` and
`"complaint"` — with a 7-day resolution timeline in its advice — iff
`H ≥ 48`; in particular `H = 48` falls in the complaint branch. -/
theorem C1_automatic_block_48h_boundary
    (strptime : String → String → Option Nat) (fmtAt fmtDate : Nat → String)
    (now t : Nat) (row : Row)
    (hA : pyUpper (pyStrip (strOr row.block_status)) = "A")
    (hparse : _parse_block_date strptime row.block_status_date = some t)
    (H : Int) (hH : H = Int.fdiv ((now : Int) - (t : Int)) 3600) :
    ((check_account_block_status strptime fmtAt fmtDate now row).recommendation
        = some "wait" ↔ H < 48)
    ∧ ((check_account_block_status strptime fmtAt fmtDate now row).recommendation
        = some "complaint" ↔ 48 ≤ H)
    ∧ (48 ≤ H →
        (check_account_block_status strptime fmtAt fmtDate now row).advice
          = [.raiseComplaintOver48Hours 7 "create_complaint_tool"]) := by
  simp only [check_account_block_status, hA, hparse, Option.map_some, Option.map_some']
  rw [← hH]
  by_cases hlt : H < 48
  · rw [if_pos hlt]
    refine ⟨⟨fun _ => hlt, fun _ => rfl⟩, ?_, ?_⟩
    · exact ⟨fun hc => absurd (Option.some.inj hc) (by decide),
        fun h => absurd h (not_le.mpr hlt)⟩
    · exact fun h => absurd h (not_le.mpr hlt)
  · rw [if_neg hlt]
    refine ⟨?_, ⟨fun _ => not_lt.mp hlt, fun _ => rfl⟩, fun _ => rfl⟩
    exact ⟨fun hc => absurd (Option.some.inj hc) (by decide), fun h => absurd h hlt⟩

/-- Witness for C1 at a concrete input: block date `"01/01/24 00:00"`
(parsed to second 0 by the first format `%d/%m/%y %H:%M`), `now` exactly
48 hours later, hence `H = 48`, which lands in the complaint branch. -/
theorem C1_witness :
    (48 : Int) ≤ 48 ∧
    (check_account_block_status
        (fun s fmt => if s = "01/01/24 00:00" ∧ fmt = "%d/%m/%y %H:%M" then some 0 else none)
        (fun _ => "") (fun _ => "") (48 * 3600)
        { block_status := some "A", block_status_date := some "01/01/24 00:00",
          block_through := some "S" }).recommendation = some "complaint" :=
  ⟨le_refl _,
    (C1_automatic_block_48h_boundary
      (fun s fmt => if s = "01/01/24 00:00" ∧ fmt = "%d/%m/%y %H:%M" then some 0 else none)
      (fun _ => "") (fun _ => "") (48 * 3600) 0
      { block_status := some "A", block_status_date := some "01/01/24 00:00",
        block_through := some "S" }
      (by decide) (by decide) 48 (by decide)).2.1.mpr (by decide)⟩

/-- **C9.** For every Automatic block record whose block timestamp is
absent or unparseable by every supported date format, the evaluator does
not fail: it takes the timestamp-unknown branch, returning recommendation
`"wait"` with the message advising to wait up to 48 hours. -/
theorem C9_unparseable_timestamp_waits
    (strptime : String → String → Option Nat) (fmtAt fmtDate : Nat → String)
    (now : Nat) (row : Row)
    (hA : pyUpper (pyStrip (strOr row.block_status)) = "A")
    (hunk : row.block_status_date = none ∨ row.block_status_date = some "" ∨
      ∀ fmt ∈ fmts, strptime (pyStrip (strOr row.block_status_date)) fmt = none) :
    (check_account_block_status strptime fmtAt fmtDate now row).recommendation = some "wait"
    ∧ (check_account_block_status strptime fmtAt fmtDate now row).message
        = "Account is automatically blocked. Exact block time is unavailable; advise waiting up to 48 hours."
    ∧ (check_account_block_status strptime fmtAt fmtDate now row).advice
        = [.waitUntil48Hours none none none "create_enquiry_tool"] := by
  have hparse : _parse_block_date strptime row.block_status_date = none := by
    rcases hunk with h | h | h
    · rw [h]; rfl
    · rw [h]; rfl
    · unfold _parse_block_date
      match hv : row.block_status_date with
      | none => rfl
      | some v =>
        rw [hv] at h
        by_cases hv0 : v = ""
        · simp [hv0]
        · simp only [hv0, if_false]
          rw [List.head?_eq_none_iff, List.filterMap_eq_nil_iff]
          intro fmt hf
          exact h fmt hf
  simp only [check_account_block_status, hA, hparse, Option.map_none, Option.map_none']
  exact ⟨rfl, rfl, rfl⟩

/-- Witness for C9 at a concrete input: a date string no supported format
parses (the `strptime` embedding rejects everything). -/
theorem C9_witness :
    (∀ fmt ∈ fmts, (fun (_ _ : String) => (none : Option Nat)) (pyStrip (strOr (some "not a date"))) fmt = none) ∧
    (check_account_block_status (fun _ _ => none) (fun _ => "") (fun _ => "") 0
      { block_status := some "A", block_status_date := some "not a date",
        block_through := none }).recommendation = some "wait" :=
  ⟨fun _ _ => rfl,
    (C9_unparseable_timestamp_waits (fun _ _ => none) (fun _ => "") (fun _ => "") 0
      { block_status := some "A", block_status_date := some "not a date",
        block_through := none }
      (by decide) (Or.inr (Or.inr (fun _ _ => rfl)))).1⟩

/-- **C10.** For every matched customer record whose block status field is
empty (absent or whitespace-only), the evaluator classifies the account as
not blocked: recommendation `"none"` with the single `NOT_BLOCKED` advice
item — the same branch as `Unblocked`, not the unknown-status complaint
branch. -/
theorem C10_empty_block_status_not_blocked
    (strptime : String → String → Option Nat) (fmtAt fmtDate : Nat → String)
    (now : Nat) (row : Row)
    (hempty : pyUpper (pyStrip (strOr row.block_status)) = "") :
    (check_account_block_status strptime fmtAt fmtDate now row).recommendation = some "none"
    ∧ (check_account_block_status strptime fmtAt fmtDate now row).message
        = "Account is currently not blocked."
    ∧ (check_account_block_status strptime fmtAt fmtDate now row).advice = [.notBlocked] := by
  simp only [check_account_block_status, hempty]
  exact ⟨rfl, rfl, rfl⟩

/-- Witness for C10 at a concrete input: a whitespace-only `block_status`
field. -/
theorem C10_witness :
    pyUpper (pyStrip (strOr (some "  "))) = "" ∧
    (check_account_block_status (fun _ _ => none) (fun _ => "") (fun _ => "") 0
      { block_status := some "  ", block_status_date := none,
        block_through := none }).recommendation = some "none" :=
  ⟨by decide,
    (C10_empty_block_status_not_blocked (fun _ _ => none) (fun _ => "") (fun _ => "") 0
      { block_status := some "  ", block_status_date := none,
        block_through := none } (by decide)).1⟩

end Birla.AccountBlock

namespace Birla

/-- Python `sub in s` (substring containment), structural. -/
def containsSub (s sub : String) : Bool :=
  s.data.tails.any (fun t => sub.data.isPrefixOf t)

end Birla

/-! ## Theorems: KYC Timeline Evaluator (C2, C8) -/

namespace Birla.Kyc

/-- **C2.** For every customer record with KYC status Complete (`'F'`) and
age `A` days: the evaluator returns the within-timeline recommendation —
with the message stating the remaining `30 - A` days — iff `A ≤ 30`, and the
timeline-exceeded (complaint) recommendation iff `A > 30`; in particular
`A = 30` is within timeline and `A = 31` exceeds it. -/
theorem C2_kyc_complete_30day_boundary (row : Row) (A : Int)
    (hF : row.kyc_status = "F") (hA : row.data_created = A) :
    ((kyc_status_checker row).recommendation = "within_timeline" ↔ A ≤ 30)
    ∧ (A ≤ 30 → (kyc_status_checker row).message
        = "KYC is done dont you need to wait " ++ toString (30 - A) ++ " days")
    ∧ ((kyc_status_checker row).recommendation = "timeline_exceeded" ↔ 30 < A) := by
  have hrec : (kyc_status_checker row).recommendation
      = if A ≤ 30 then "within_timeline" else "timeline_exceeded" := by
    simp only [kyc_status_checker, hF, hA, ite_true]
    split <;> rfl
  have hmsg : A ≤ 30 → (kyc_status_checker row).message
      = "KYC is done dont you need to wait " ++ toString (30 - A) ++ " days" := by
    intro h
    have hmax : max (0 : Int) (30 - A) = 30 - A := max_eq_right (by omega)
    simp only [kyc_status_checker, hF, hA, ite_true, if_pos h]
    simp [hmax]
  refine ⟨?_, hmsg, ?_⟩
  · rw [hrec]
    by_cases h : A ≤ 30
    · simp [h]
    · rw [if_neg h]
      exact ⟨fun hc => absurd hc (by decide), fun hc => absurd hc h⟩
  · rw [hrec]
    by_cases h : A ≤ 30
    · rw [if_pos h]
      exact ⟨fun hc => absurd hc (by decide), fun hc => absurd hc (by omega)⟩
    · rw [if_neg h]
      exact ⟨fun _ => by omega, fun _ => rfl⟩

/-- Witness for C2 at the claim's boundary inputs: `A = 30` is within
timeline with message naming `0` remaining days; `A = 31` exceeds. -/
theorem C2_witness :
    ((kyc_status_checker
        { kyc_status := "F", is_aadhar_added := "true", is_pan_added := "true",
          is_bank_added := "true", is_upi_added := "true",
          data_created := 30 }).recommendation = "within_timeline")
    ∧ ((kyc_status_checker
        { kyc_status := "F", is_aadhar_added := "true", is_pan_added := "true",
          is_bank_added := "true", is_upi_added := "true",
          data_created := 31 }).recommendation = "timeline_exceeded") :=
  ⟨(C2_kyc_complete_30day_boundary
      { kyc_status := "F", is_aadhar_added := "true", is_pan_added := "true",
        is_bank_added := "true", is_upi_added := "true", data_created := 30 }
      30 rfl rfl).1.mpr (by decide),
   (C2_kyc_complete_30day_boundary
      { kyc_status := "F", is_aadhar_added := "true", is_pan_added := "true",
        is_bank_added := "true", is_upi_added := "true", data_created := 31 }
      31 rfl rfl).2.2.mpr (by decide)⟩

/-- **C8 (counterexample).** The claim says an unrecognized KYC status code
yields recommendation CreateComplaint.  In this evaluator the complaint
escalation is the `"timeline_exceeded"` branch (its message directs
"raise a complaint" — the same correspondence the claim set itself uses for
status Complete with `A > 30`).  At status code `"X"` the evaluator instead
returns the distinct recommendation `"unknown_status"`, whose message
contains no complaint directive at all — unlike the timeline-exceeded
branch, whose message does. -/
theorem C8_counterexample :
    (kyc_status_checker
        { kyc_status := "X", is_aadhar_added := "true", is_pan_added := "true",
          is_bank_added := "true", is_upi_added := "true",
          data_created := 0 }).recommendation = "unknown_status"
    ∧ (kyc_status_checker
        { kyc_status := "X", is_aadhar_added := "true", is_pan_added := "true",
          is_bank_added := "true", is_upi_added := "true",
          data_created := 0 }).recommendation ≠ "timeline_exceeded"
    ∧ containsSub (kyc_status_checker
        { kyc_status := "X", is_aadhar_added := "true", is_pan_added := "true",
          is_bank_added := "true", is_upi_added := "true",
          data_created := 0 }).message "complaint" = false
    ∧ containsSub (kyc_status_checker
        { kyc_status := "F", is_aadhar_added := "true", is_pan_added := "true",
          is_bank_added := "true", is_upi_added := "true",
          data_created := 31 }).message "complaint" = true := by
  exact ⟨by decide, by decide, by decide, by decide⟩

/-- **C8 (amended).** For every customer record whose KYC status code is
outside the known set `{F, P, R, N}`, the evaluator never throws and always
returns a verdict routed to the explicit unknown branch: recommendation
`"unknown_status"`, description `"Unknown"`, and a message stating the
status is unclear and advising to check with the technical team — with no
complaint directive in the message. -/
theorem C8_unknown_status_branch (row : Row)
    (hF : row.kyc_status ≠ "F") (hP : row.kyc_status ≠ "P")
    (hR : row.kyc_status ≠ "R") (hN : row.kyc_status ≠ "N") :
    (kyc_status_checker row).recommendation = "unknown_status"
    ∧ (kyc_status_checker row).message
        = "KYC status unclear. Please check with technical team."
    ∧ (kyc_status_checker row).kycStatusDescription = "Unknown"
    ∧ containsSub (kyc_status_checker row).message "complaint" = false := by
  simp only [kyc_status_checker, hF, hP, hR, hN, ite_false, if_false]
  exact ⟨trivial, trivial, trivial, by decide⟩

/-- Witness for C8 (amended) at status code `"X"`. -/
theorem C8_witness :
    ("X" : String) ≠ "F" ∧
    (kyc_status_checker
      { kyc_status := "X", is_aadhar_added := "true", is_pan_added := "true",
        is_bank_added := "true", is_upi_added := "true",
        data_created := 0 }).recommendation = "unknown_status" :=
  ⟨by decide,
    (C8_unknown_status_branch
      { kyc_status := "X", is_aadhar_added := "true", is_pan_added := "true",
        is_bank_added := "true", is_upi_added := "true", data_created := 0 }
      (by decide) (by decide) (by decide) (by decide)).1⟩

end Birla.Kyc


/-! ## Theorems: Redemption Eligibility Evaluator (C3, C5, C7) -/

namespace Birla.CashTransfer

/-- The claim's reading of the fallback balance: the signed sum of all
credit entries minus all debit entries, written as an order-independent
map-sum over the account's ledger rows. -/
def signedSum (str_to_int : String → Option Int) (l : List PointRow) : Int :=
  (l.map (fun r =>
    let pts := _safe_int str_to_int (some r.point_cr_db)
    if pyUpper (pyStrip r.method) = "C" then pts
    else if pyUpper (pyStrip r.method) = "D" then -pts else 0)).sum

theorem computedSum_eq_signedSum (str_to_int : String → Option Int)
    (l : List PointRow) : computedSum str_to_int l = signedSum str_to_int l := by
  suffices h : ∀ acc, l.foldl (fun acc r =>
      let points := _safe_int str_to_int (some r.point_cr_db)
      let method := pyUpper (pyStrip r.method)
      if method = "C" then acc + points
      else if method = "D" then acc - points
      else acc) acc = acc + signedSum str_to_int l by
    simpa [computedSum] using h 0
  induction l with
  | nil => intro acc; simp [signedSum]
  | cons r t ih =>
    intro acc
    simp only [List.foldl_cons, signedSum, List.map_cons, List.sum_cons] at *
    rw [ih]
    split_ifs <;> ring

theorem signedSum_perm (str_to_int : String → Option Int)
    {l₁ l₂ : List PointRow} (h : l₁.Perm l₂) :
    signedSum str_to_int l₁ = signedSum str_to_int l₂ :=
  List.Perm.sum_eq (h.map _)

/-- **C5.** For every point-transfer ledger the balance computation is
deterministic (the kernel is a pure function: recomputing over the same
ledger yields the same value), and exactly one source is used:
if any row of the account's ledger carries a non-blank balance snapshot,
the returned balance is the snapshot on the first snapshot-carrying row of
the descending-by-`created_at` sorted ledger — the most recent such entry —
with source `"balance_field"` and the computed-sum path never used;
only when no row carries a snapshot (and the ledger is non-empty) is the
balance the signed sum of all credit entries minus all debit entries, with
source `"computed"`. -/
theorem C5_balance_snapshot_over_sum
    (strptime : String → String → Option Nat) (str_to_int : String → Option Int)
    (pointTable : List PointRow) (opus_pc_id : String) :
    (_compute_point_balance strptime str_to_int pointTable opus_pc_id
      = _compute_point_balance strptime str_to_int pointTable opus_pc_id)
    ∧ ((∃ r ∈ ledgerRows pointTable opus_pc_id, pyStrip r.balance ≠ "") →
        (_compute_point_balance strptime str_to_int pointTable opus_pc_id).source
          = some "balance_field"
        ∧ ∀ r₀, (sortedLedger strptime pointTable opus_pc_id).find?
              (fun r => pyStrip r.balance ≠ "") = some r₀ →
            (_compute_point_balance strptime str_to_int pointTable opus_pc_id).balance
              = some (_safe_int str_to_int (some (pyStrip r₀.balance))))
    ∧ ((ledgerRows pointTable opus_pc_id ≠ [] ∧
          ∀ r ∈ ledgerRows pointTable opus_pc_id, pyStrip r.balance = "") →
        (_compute_point_balance strptime str_to_int pointTable opus_pc_id).balance
          = some (signedSum str_to_int (ledgerRows pointTable opus_pc_id))
        ∧ (_compute_point_balance strptime str_to_int pointTable opus_pc_id).source
          = some "computed") := by
  have hperm : (sortedLedger strptime pointTable opus_pc_id).Perm
      (ledgerRows pointTable opus_pc_id) := pySort_perm _ _
  refine ⟨rfl, ?_, ?_⟩
  · intro hex
    have hne : (ledgerRows pointTable opus_pc_id).isEmpty = false := by
      rcases hex with ⟨r, hr, _⟩
      cases hl : ledgerRows pointTable opus_pc_id with
      | nil => rw [hl] at hr; cases hr
      | cons a t => rfl
    have hfind : (sortedLedger strptime pointTable opus_pc_id).find?
        (fun r => pyStrip r.balance ≠ "") ≠ none := by
      rw [Ne, List.find?_eq_none]
      push_neg
      rcases hex with ⟨r, hr, hb⟩
      exact ⟨r, hperm.mem_iff.mpr hr, by simpa using hb⟩
    cases hf : (sortedLedger strptime pointTable opus_pc_id).find?
        (fun r => pyStrip r.balance ≠ "") with
    | none => exact absurd hf hfind
    | some r₀ =>
      have hcompute : _compute_point_balance strptime str_to_int pointTable opus_pc_id
          = { balance := some (_safe_int str_to_int (some (pyStrip r₀.balance)))
              source := some "balance_field"
              asOf := some r₀.created_at } := by
        unfold _compute_point_balance
        simp only [hne, Bool.false_eq_true, if_false, hf]
      refine ⟨by rw [hcompute], ?_⟩
      intro r₁ hf₁
      cases hf₁
      rw [hcompute]
  · rintro ⟨hnil, hall⟩
    have hne : (ledgerRows pointTable opus_pc_id).isEmpty = false := by
      cases hl : ledgerRows pointTable opus_pc_id with
      | nil => exact absurd hl hnil
      | cons a t => rfl
    have hf : (sortedLedger strptime pointTable opus_pc_id).find?
        (fun r => pyStrip r.balance ≠ "") = none := by
      rw [List.find?_eq_none]
      intro r hr
      simp [hall r (hperm.mem_iff.mp hr)]
    have hcompute : _compute_point_balance strptime str_to_int pointTable opus_pc_id
        = { balance := some (computedSum str_to_int
              (sortedLedger strptime pointTable opus_pc_id))
            source := some "computed"
            asOf := (sortedLedger strptime pointTable opus_pc_id).head?.map
              (·.created_at) } := by
      unfold _compute_point_balance
      simp only [hne, Bool.false_eq_true, if_false, hf]
    rw [hcompute, computedSum_eq_signedSum]
    exact ⟨by rw [signedSum_perm str_to_int hperm], rfl⟩

/-- Witness for C5 at a concrete two-row ledger: the newer row carries
snapshot `"700"` (created `02/01/25 10:00`, parsed to 2), the older row has
a blank snapshot and a `C` credit of 500 (created `01/01/25 10:00`, parsed
to 1); the returned balance is the snapshot 700, not the computed 500. -/
theorem C5_witness :
    ((sortedLedger
        (fun s _ => if s = "02/01/25 10:00" then some 2
                    else if s = "01/01/25 10:00" then some 1 else none)
        [{ opus_pc_id := "PC-000001", balance := "700", point_cr_db := "",
           method := "", created_at := "02/01/25 10:00" },
         { opus_pc_id := "PC-000001", balance := "", point_cr_db := "500",
           method := "C", created_at := "01/01/25 10:00" }]
        "PC-000001").find? (fun r => pyStrip r.balance ≠ "")
      = some { opus_pc_id := "PC-000001", balance := "700", point_cr_db := "",
               method := "", created_at := "02/01/25 10:00" })
    ∧ (_compute_point_balance
        (fun s _ => if s = "02/01/25 10:00" then some 2
                    else if s = "01/01/25 10:00" then some 1 else none)
        (fun s => if s = "700" then some 700 else if s = "500" then some 500 else none)
        [{ opus_pc_id := "PC-000001", balance := "700", point_cr_db := "",
           method := "", created_at := "02/01/25 10:00" },
         { opus_pc_id := "PC-000001", balance := "", point_cr_db := "500",
           method := "C", created_at := "01/01/25 10:00" }]
        "PC-000001").balance = some 700 := by
  refine ⟨by decide, ?_⟩
  have h := (C5_balance_snapshot_over_sum
      (fun s _ => if s = "02/01/25 10:00" then some 2
                  else if s = "01/01/25 10:00" then some 1 else none)
      (fun s => if s = "700" then some 700 else if s = "500" then some 500 else none)
      [{ opus_pc_id := "PC-000001", balance := "700", point_cr_db := "",
         method := "", created_at := "02/01/25 10:00" },
       { opus_pc_id := "PC-000001", balance := "", point_cr_db := "500",
         method := "C", created_at := "01/01/25 10:00" }]
      "PC-000001").2.1
    ⟨{ opus_pc_id := "PC-000001", balance := "700", point_cr_db := "",
       method := "", created_at := "02/01/25 10:00" }, by decide, by decide⟩
  exact (h.2 { opus_pc_id := "PC-000001", balance := "700", point_cr_db := "",
               method := "", created_at := "02/01/25 10:00" } (by decide)).trans
    (by decide)

end Birla.CashTransfer

namespace Birla.CashTransfer

theorem redemptionOf_fields
    (strptime : String → String → Option Nat) (str_to_int : String → Option Int)
    (cashTable : List CashRow) (pointTable : List PointRow) (target : String) :
    (redemptionOf strptime str_to_int cashTable pointTable target).isFirstRedemption
      = decide ((anySuccessRows strptime str_to_int cashTable target).length = 0)
    ∧ (redemptionOf strptime str_to_int cashTable pointTable target).requiredMinPoints
      = (if (anySuccessRows strptime str_to_int cashTable target).length = 0
         then 5000 else 500)
    ∧ (redemptionOf strptime str_to_int cashTable pointTable target).currentBalance
      = (_compute_point_balance strptime str_to_int pointTable target).balance.getD 0
    ∧ (redemptionOf strptime str_to_int cashTable pointTable target).meetsMinRequirement
      = decide ((redemptionOf strptime str_to_int cashTable pointTable target).currentBalance
          ≥ (redemptionOf strptime str_to_int cashTable pointTable target).requiredMinPoints)
    ∧ (redemptionOf strptime str_to_int cashTable pointTable target).missingPoints
      = (if (redemptionOf strptime str_to_int cashTable pointTable target).currentBalance
            < (redemptionOf strptime str_to_int cashTable pointTable target).requiredMinPoints
         then (redemptionOf strptime str_to_int cashTable pointTable target).requiredMinPoints
            - (redemptionOf strptime str_to_int cashTable pointTable target).currentBalance
         else 0) :=
  ⟨rfl, rfl, rfl, rfl, rfl⟩

/-- **C3.** For every transfer ledger and point ledger: the evaluator
classifies the account as first-time iff no transfer row of the account
(anywhere in the full filtered ledger, not just the last-`N` window — the
redemption block is independent of the `limit` argument) has status
Success (`Y`); the threshold is 5000 when first-time and 500 otherwise;
the account meets the minimum iff balance ≥ threshold; and when it does
not, the reported shortfall is threshold − balance. -/
theorem C3_first_time_and_threshold
    (strptime : String → String → Option Nat) (str_to_int : String → Option Int)
    (cashTable : List CashRow) (pointTable : List PointRow)
    (rawId : Option String) (limit : Int) (target : String) (res : CashResult)
    (hn : _normalize_opus_pc_id rawId = some target)
    (hres : get_cash_transfer_history strptime str_to_int cashTable pointTable
      rawId limit = .ok res) :
    (res.redemption.isFirstRedemption = true ↔
      ∀ r ∈ cashRowsFor cashTable target, ¬ pyUpper (pyStrip r.status) = "Y")
    ∧ res.redemption.requiredMinPoints
        = (if res.redemption.isFirstRedemption then 5000 else 500)
    ∧ res.redemption.currentBalance
        = (_compute_point_balance strptime str_to_int pointTable target).balance.getD 0
    ∧ (res.redemption.meetsMinRequirement = true ↔
        res.redemption.requiredMinPoints ≤ res.redemption.currentBalance)
    ∧ (res.redemption.meetsMinRequirement = false →
        res.redemption.missingPoints
          = res.redemption.requiredMinPoints - res.redemption.currentBalance)
    ∧ (∀ (limit' : Int) (res' : CashResult),
        get_cash_transfer_history strptime str_to_int cashTable pointTable
          rawId limit' = .ok res' →
        res'.redemption = res.redemption) := by
  have hok : ∀ (lim : Int) (r : CashResult),
      get_cash_transfer_history strptime str_to_int cashTable pointTable rawId lim
        = .ok r →
      r.redemption = redemptionOf strptime str_to_int cashTable pointTable target := by
    intro lim r h
    simp only [get_cash_transfer_history, hn] at h
    cases h
    rfl
  have hred := hok limit res hres
  obtain ⟨e1, e2, e3, e4, e5⟩ :=
    redemptionOf_fields strptime str_to_int cashTable pointTable target
  have hperm : (sortedCashRows strptime str_to_int cashTable target).Perm
      (cashRowsFor cashTable target) := pySort_perm _ _
  refine ⟨?_, ?_, ?_, ?_, ?_, ?_⟩
  · rw [hred, e1, decide_eq_true_eq, List.length_eq_zero]
    unfold anySuccessRows
    rw [List.filter_eq_nil_iff]
    constructor
    · intro h r hr
      simpa using h r (hperm.mem_iff.mpr hr)
    · intro h r hr
      simpa using h r (hperm.mem_iff.mp hr)
  · rw [hred, e2, e1]
    by_cases h : (anySuccessRows strptime str_to_int cashTable target).length = 0
    · rw [if_pos h, if_pos (by simp [h])]
    · rw [if_neg h, if_neg (by simp [h])]
  · rw [hred]; exact e3
  · rw [hred, e4, decide_eq_true_eq]
  · intro hm
    rw [hred] at hm
    rw [e4] at hm
    have hnot := of_decide_eq_false hm
    have hlt : (redemptionOf strptime str_to_int cashTable pointTable target).currentBalance
        < (redemptionOf strptime str_to_int cashTable pointTable target).requiredMinPoints :=
      lt_of_not_ge hnot
    rw [hred, e5, if_pos hlt]
  · intro limit' res' h'
    rw [hok limit' res' h', hred]

/-- Witness for C3 at the claim's example (end-to-end scenario C): no prior
transfers (first-time), balance snapshot 4000 ⇒ not eligible, required
5000, shortfall 1000. -/
theorem C3_witness :
    _normalize_opus_pc_id (some "PC-000001") = some "PC-000001" ∧
    (Except.map
      (fun r : CashResult => (r.redemption.isFirstRedemption,
        r.redemption.requiredMinPoints, r.redemption.meetsMinRequirement,
        r.redemption.missingPoints))
      (get_cash_transfer_history (fun _ _ => none)
        (fun s => if s = "4000" then some 4000 else none) []
        [{ opus_pc_id := "PC-000001", balance := "4000", point_cr_db := "",
           method := "", created_at := "01/01/25 10:00" }]
        (some "PC-000001") 3)
      = .ok (true, 5000, false, 1000)) := by
  constructor
  · decide
  · have h := C3_first_time_and_threshold (fun _ _ => none)
      (fun s => if s = "4000" then some 4000 else none) []
      [{ opus_pc_id := "PC-000001", balance := "4000", point_cr_db := "",
         method := "", created_at := "01/01/25 10:00" }]
      (some "PC-000001") 3 "PC-000001" _ (by decide) rfl
    exact congrArg (Except.map _) rfl

/-- The `next_action` field of an advice dictionary of
`get_cash_transfer_history` (`PAYMENT_NOT_ACCEPTED` carries none). -/
def CashAdvice.next_action : CashAdvice → Option String
  | .insufficientPoints _ _ _ _ na => some na
  | .pointsSufficient _ _ _ na => some na
  | .paymentNotAccepted _ _ _ _ _ => none

/-- **C7 (counterexample).** The claim says no advice item or
recommendation field directs the caller to a complaint/enquiry creation
action.  On any account whose balance is below the threshold (here: an
empty ledger), the `INSUFFICIENT_POINTS` advice item carries
`next_action = "create_enquiry_for_minimum_points_guidance"` — an
enquiry-creation action pointer (it starts with `create_enquiry`). -/
theorem C7_counterexample :
    (Except.map (fun r : CashResult => r.advice)
      (get_cash_transfer_history (fun _ _ => none) (fun _ => none) [] []
        (some "PC-000001") 3)
      = .ok [CashAdvice.insufficientPoints true 5000 0 5000
          "create_enquiry_for_minimum_points_guidance"])
    ∧ pyStartsWith "create_enquiry_for_minimum_points_guidance" "create_enquiry"
        = true :=
  ⟨rfl, by decide⟩

/-- **C7 (amended).** For every input, the evaluator's output has no
recommendation field and never directs complaint creation: every advice
item's `next_action` is either the enquiry-guidance pointer
`"create_enquiry_for_minimum_points_guidance"` (insufficient points), or
`"proceed_with_redemption_checks"` (sufficient points), or absent
(`PAYMENT_NOT_ACCEPTED`), and no `next_action` string mentions
`"complaint"`. -/
theorem C7_advice_never_complaint
    (strptime : String → String → Option Nat) (str_to_int : String → Option Int)
    (cashTable : List CashRow) (pointTable : List PointRow)
    (rawId : Option String) (limit : Int) (res : CashResult)
    (hres : get_cash_transfer_history strptime str_to_int cashTable pointTable
      rawId limit = .ok res) :
    ∀ a ∈ res.advice,
      (CashAdvice.next_action a = some "create_enquiry_for_minimum_points_guidance"
        ∨ CashAdvice.next_action a = some "proceed_with_redemption_checks"
        ∨ CashAdvice.next_action a = none)
      ∧ (∀ s, CashAdvice.next_action a = some s →
          containsSub s "complaint" = false) := by
  cases hn : _normalize_opus_pc_id rawId with
  | none =>
    simp only [get_cash_transfer_history, hn] at hres
    simp at hres
  | some target =>
    simp only [get_cash_transfer_history, hn] at hres
    cases hres
    intro a ha
    rcases List.mem_append.mp ha with h | h
    · split at h
      · rw [List.mem_singleton] at h
        subst h
        refine ⟨Or.inl rfl, ?_⟩
        intro s hs
        cases hs
        decide
      · rw [List.mem_singleton] at h
        subst h
        refine ⟨Or.inr (Or.inl rfl), ?_⟩
        intro s hs
        cases hs
        decide
    · split at h
      · rw [List.mem_singleton] at h
        subst h
        exact ⟨Or.inr (Or.inr rfl), fun s hs => Option.noConfusion hs⟩
      · cases h

/-- Witness for C7 (amended) on a concrete eligible account whose advice
list holds a sufficient-points item and a payment-not-accepted item. -/
theorem C7_witness :
    CashAdvice.next_action
        (CashAdvice.pointsSufficient false 500 600 "proceed_with_redemption_checks")
      = some "create_enquiry_for_minimum_points_guidance"
    ∨ CashAdvice.next_action
        (CashAdvice.pointsSufficient false 500 600 "proceed_with_redemption_checks")
      = some "proceed_with_redemption_checks"
    ∨ CashAdvice.next_action
        (CashAdvice.pointsSufficient false 500 600 "proceed_with_redemption_checks")
      = none := by
  have h := C7_advice_never_complaint (fun _ _ => none)
    (fun s => if s = "600" then some 600 else none)
    [{ id := "1", transaction_id := "t1", transfer_id := "f1",
       opus_pc_id := "PC-000001", ty := "U", points := "100", status := "Y",
       reason := "", reason_message := "", created_at := "01/01/25 10:00",
       updated_at := "01/01/25 10:00" },
     { id := "2", transaction_id := "t2", transfer_id := "f2",
       opus_pc_id := "PC-000001", ty := "U", points := "100", status := "P",
       reason := "", reason_message := "pending", created_at := "02/01/25 10:00",
       updated_at := "02/01/25 10:00" }]
    [{ opus_pc_id := "PC-000001", balance := "600", point_cr_db := "",
       method := "", created_at := "01/01/25 10:00" }]
    (some "PC-000001") 3 _ rfl
  exact (h (CashAdvice.pointsSufficient false 500 600 "proceed_with_redemption_checks")
    (List.mem_cons_self _ _)).1

end Birla.CashTransfer

/-! ## Theorems: Scan History Evaluator (C4, C6) -/

namespace Birla

/-- `_normalize_opus_pc_id` never produces an empty string. -/
theorem normalize_ne_empty {x : Option String} {s : String}
    (h : _normalize_opus_pc_id x = some s) : s ≠ "" := by
  unfold _normalize_opus_pc_id at h
  match x with
  | none => exact Option.noConfusion h
  | some raw =>
    simp only at h
    by_cases h0 : pyStrip raw = ""
    · rw [if_pos h0] at h
      exact Option.noConfusion h
    · rw [if_neg h0] at h
      by_cases h1 : pyStartsWith (pyUpper (pyStrip raw)) "PC-" = true
      · rw [if_pos h1] at h
        cases h
        exact h0
      · rw [if_neg h1] at h
        by_cases h2 : String.mk ((pyStrip raw).toList.filter Char.isDigit) = ""
        · rw [if_pos h2] at h
          cases h
          exact h0
        · rw [if_neg h2] at h
          cases h
          intro habs
          have hlen := congrArg String.length habs
          rw [String.length_append] at hlen
          have h3 : ("PC-" : String).length = 3 := rfl
          have h4 : ("" : String).length = 0 := rfl
          rw [h3, h4] at hlen
          exact absurd hlen (by omega)

end Birla

namespace Birla.CodeHistory

/-- The ownership loop of lines 326–333 computes exactly the first
Success/AlreadyUsed row owned by the caller and the first one owned by
anyone else, seen in list order. -/
theorem scanLoop_eq_find (caller : String) (hcne : caller ≠ "")
    (l : List CodeRow) (own other : Option CodeRow) :
    scanLoop (some caller) l (own, other)
      = (own.orElse (fun _ => l.find? (fun r =>
            (r.status = "Y" ∨ r.status = "A")
            ∧ _normalize_opus_pc_id (some r.opus_pc_id) = some caller)),
         other.orElse (fun _ => l.find? (fun r =>
            (r.status = "Y" ∨ r.status = "A")
            ∧ _normalize_opus_pc_id (some r.opus_pc_id) ≠ some caller))) := by
  have htrue : optTruthy (some caller) = true := by simp [optTruthy, hcne]
  induction l generalizing own other with
  | nil => cases own <;> cases other <;> rfl
  | cons r t ih =>
    by_cases hYA : r.status = "Y" ∨ r.status = "A"
    · by_cases howner : _normalize_opus_pc_id (some r.opus_pc_id) = some caller
      · have hpOwn : (fun r : CodeRow => decide ((r.status = "Y" ∨ r.status = "A")
            ∧ _normalize_opus_pc_id (some r.opus_pc_id) = some caller)) r = true := by
          simp [hYA, howner]
        have hpOth : ¬ (fun r : CodeRow => decide ((r.status = "Y" ∨ r.status = "A")
            ∧ _normalize_opus_pc_id (some r.opus_pc_id) ≠ some caller)) r = true := by
          simp [howner]
        rw [List.find?_cons_of_pos t hpOwn, List.find?_cons_of_neg t hpOth]
        cases own with
        | none =>
          have step : scanLoop (some caller) (r :: t) (none, other)
              = scanLoop (some caller) t (some r, other) := by
            rcases hYA with h | h <;> simp [scanLoop, htrue, howner, h]
          rw [step, ih]
          simp [Option.orElse]
        | some o =>
          have step : scanLoop (some caller) (r :: t) (some o, other)
              = scanLoop (some caller) t (some o, other) := by
            rcases hYA with h | h <;> simp [scanLoop, htrue, howner, h]
          rw [step, ih]
          simp [Option.orElse]
      · have hpOwn : ¬ (fun r : CodeRow => decide ((r.status = "Y" ∨ r.status = "A")
            ∧ _normalize_opus_pc_id (some r.opus_pc_id) = some caller)) r = true := by
          simp [howner]
        have hpOth : (fun r : CodeRow => decide ((r.status = "Y" ∨ r.status = "A")
            ∧ _normalize_opus_pc_id (some r.opus_pc_id) ≠ some caller)) r = true := by
          simp [hYA, howner]
        rw [List.find?_cons_of_neg t hpOwn, List.find?_cons_of_pos t hpOth]
        cases other with
        | none =>
          have step : scanLoop (some caller) (r :: t) (own, none)
              = scanLoop (some caller) t (own, some r) := by
            cases own with
            | none => rcases hYA with h | h <;> simp [scanLoop, htrue, howner, h]
            | some o => rcases hYA with h | h <;> simp [scanLoop, htrue, howner, h]
          rw [step, ih]
          simp [Option.orElse]
        | some o =>
          have step : scanLoop (some caller) (r :: t) (own, some o)
              = scanLoop (some caller) t (own, some o) := by
            cases own with
            | none => rcases hYA with h | h <;> simp [scanLoop, htrue, howner, h]
            | some o2 => rcases hYA with h | h <;> simp [scanLoop, htrue, howner, h]
          rw [step, ih]
          simp [Option.orElse]
    · have hpOwn : ¬ (fun r : CodeRow => decide ((r.status = "Y" ∨ r.status = "A")
          ∧ _normalize_opus_pc_id (some r.opus_pc_id) = some caller)) r = true := by
        simp [hYA]
      have hpOth : ¬ (fun r : CodeRow => decide ((r.status = "Y" ∨ r.status = "A")
          ∧ _normalize_opus_pc_id (some r.opus_pc_id) ≠ some caller)) r = true := by
        simp [hYA]
      rw [List.find?_cons_of_neg t hpOwn, List.find?_cons_of_neg t hpOth]
      have step : scanLoop (some caller) (r :: t) (own, other)
          = scanLoop (some caller) t (own, other) := by
        simp [scanLoop, hYA]
      rw [step]
      exact ih own other

end Birla.CodeHistory

namespace Birla.CodeHistory

theorem mismatchPairOf_none (strptime : String → String → Option Nat)
    (codeTable : List CodeRow) (q : Query) (hut : q.user_type = none) :
    mismatchPairOf strptime codeTable q = (none, []) := by
  unfold mismatchPairOf
  rw [hut]

/-- Fixture for C4: the earlier Success scan of code `123456789012`, by a
different customer than the caller. -/
def c4r1 : CodeRow :=
  { id := "1", opus_pc_id := "PC-000002", coupon_code := "123456789012",
    coupon_type := "L", status := "Y", earn_point := "10",
    created_at := "2024-01-01 00:00:00", updated_at := "2024-01-01 00:00:00" }

/-- Fixture for C4: the caller's own, later AlreadyUsed scan of the same
code. -/
def c4r2 : CodeRow :=
  { id := "2", opus_pc_id := "PC-000001", coupon_code := "123456789012",
    coupon_type := "L", status := "A", earn_point := "0",
    created_at := "2024-02-01 00:00:00", updated_at := "2024-02-01 00:00:00" }

/-- Fixture for C4: query the code as caller `PC-000001`. -/
def c4q : Query :=
  { opus_pc_id := none, coupon_code := some "123456789012", limit := none,
    order := none, user_type := none, caller_opus_pc_id := some "PC-000001" }

/-- Fixture for C4: `strptime` table for the two timestamps (orders them as
the real `%Y-%m-%d %H:%M:%S` parse would). -/
def c4P : String → String → Option Nat := fun s fmt =>
  if fmt = "%Y-%m-%d %H:%M:%S" then
    if s = "2024-01-01 00:00:00" then some 1
    else if s = "2024-02-01 00:00:00" then some 2 else none
  else none

/-- **C4 (counterexample).** The claim says the owner of the *earliest*
Success/AlreadyUsed record decides the verdict.  Here the earliest such
record of the code's ascending history belongs to a different owner
(`PC-000002`) — so the claim requires the "scanned by another user" fraud
complaint — yet because the caller also owns a *later* AlreadyUsed record,
the evaluator answers "already scanned by you" with only a duplicate-scan
advice item and no fraud-complaint recommendation. -/
theorem C4_counterexample :
    (ascCodeRowsOf c4P [c4r1, c4r2] c4q).find?
        (fun r => r.status = "Y" ∨ r.status = "A") = some c4r1
    ∧ _normalize_opus_pc_id (some c4r1.opus_pc_id) ≠ callerIdOf c4q
    ∧ latestStatusOf c4P [c4r1, c4r2] c4q = "A"
    ∧ Except.map (fun r : CodeResult => r.message)
        (query_code_history c4P (fun _ => none) [c4r1, c4r2] [] c4q)
      = .ok (ownText "2024-02-01 00:00:00")
    ∧ Except.map (fun r : CodeResult => r.advice)
        (query_code_history c4P (fun _ => none) [c4r1, c4r2] [] c4q)
      = .ok [CodeAdvice.duplicateScanBySameUser "2024-02-01 00:00:00" "123456789012"]
    ∧ ownText "2024-02-01 00:00:00" ≠ fraudText :=
  ⟨rfl, by decide, rfl, rfl, rfl, by decide⟩

theorem fraud_not_mem_status (strptime : String → String → Option Nat)
    (codeTable : List CodeRow) (q : Query) (cc : String) (who : Option String)
    (when na : String) :
    CodeAdvice.createComplaintForFraudScan cc who when na
      ∉ (statusTripleOf strptime codeTable q).2.2 := by
  unfold statusTripleOf
  split_ifs <;> simp

theorem fraud_not_mem_manual (strptime : String → String → Option Nat)
    (codeTable : List CodeRow) (refTable : List RefRow) (q : Query)
    (cc : String) (who : Option String) (when na : String) :
    CodeAdvice.createComplaintForFraudScan cc who when na
      ∉ (manualDataOf strptime codeTable refTable q).2.1 := by
  unfold manualDataOf
  split
  · dsimp only
    split
    · simp
    · split
      · simp
      · simp
  · simp

theorem fraud_not_mem_propix (strptime : String → String → Option Nat)
    (codeTable : List CodeRow) (refTable : List RefRow) (q : Query)
    (cc : String) (who : Option String) (when na : String) :
    CodeAdvice.createComplaintForFraudScan cc who when na
      ∉ (propixDataOf strptime codeTable refTable q).2 := by
  unfold propixDataOf
  cases (manualDataOf strptime codeTable refTable q).2.2 with
  | none => simp
  | some lr =>
    simp only []
    split_ifs <;> simp

theorem fraud_not_mem_length (strptime : String → String → Option Nat)
    (codeTable : List CodeRow) (q : Query)
    (cc : String) (who : Option String) (when na : String) :
    CodeAdvice.createComplaintForFraudScan cc who when na
      ∉ lengthAdvOf strptime codeTable q := by
  unfold lengthAdvOf
  cases latestEntryOf strptime codeTable q with
  | none => simp
  | some e =>
    cases derivedTypeOf strptime codeTable q with
    | none => simp
    | some d =>
      by_cases hc : (e.coupon_type = "L" ∨ e.coupon_type = "C") ∧ e.coupon_type ≠ d
      · simp [hc]
      · simp [hc]

end Birla.CodeHistory

namespace Birla.CodeHistory

theorem latestStatusOf_eq (strptime : String → String → Option Nat)
    (codeTable : List CodeRow) (q : Query) (e0 : CodeRow)
    (hhead : (limitedRowsOf strptime codeTable q).head? = some e0) :
    latestStatusOf strptime codeTable q = e0.status := by
  unfold latestStatusOf
  rw [hhead]
  rfl

theorem head_mem_matching (strptime : String → String → Option Nat)
    (codeTable : List CodeRow) (q : Query) (e0 : CodeRow)
    (hhead : (limitedRowsOf strptime codeTable q).head? = some e0) :
    e0 ∈ matchingRows codeTable q := by
  have h1 : e0 ∈ limitedRowsOf strptime codeTable q := List.mem_of_mem_head? hhead
  have h2 : e0 ∈ sortedRowsOf strptime codeTable q := by
    unfold limitedRowsOf at h1
    split at h1
    · exact h1
    · exact List.take_subset _ _ h1
  unfold sortedRowsOf at h2
  split at h2
  · exact (pySort_perm _ _).mem_iff.mp h2
  · exact (pySort_perm _ _).mem_iff.mp h2

theorem head_mem_asc (strptime : String → String → Option Nat)
    (codeTable : List CodeRow) (q : Query) (c : String) (e0 : CodeRow)
    (hcc : q.coupon_code = some c) (hc : c ≠ "")
    (hhead : (limitedRowsOf strptime codeTable q).head? = some e0) :
    e0 ∈ ascCodeRowsOf strptime codeTable q := by
  have h3 := head_mem_matching strptime codeTable q e0 hhead
  have h4 := List.mem_filter.mp h3
  have htr : optTruthy q.coupon_code = true := by
    rw [hcc]; simp [optTruthy, hc]
  have hcoup : (e0.coupon_code == strOr q.coupon_code) = true := by
    have hb := h4.2
    rw [Bool.and_eq_true] at hb
    rcases hb with ⟨_, hb⟩
    rw [htr] at hb
    simpa using hb
  have h5 : e0 ∈ codeRowsOf codeTable q := by
    unfold codeRowsOf
    rw [if_pos htr]
    exact List.mem_filter.mpr ⟨h4.1, hcoup⟩
  exact (pySort_perm _ _).mem_iff.mpr h5

theorem ownershipPairOf_spec (strptime : String → String → Option Nat)
    (codeTable : List CodeRow) (q : Query) (c caller : String) (e0 : CodeRow)
    (hcc : q.coupon_code = some c) (hc : c ≠ "")
    (hcaller : callerIdOf q = some caller)
    (hhead : (limitedRowsOf strptime codeTable q).head? = some e0)
    (hst : e0.status = "A" ∨ e0.status = "Y") :
    (∀ rOwn, (ascCodeRowsOf strptime codeTable q).find? (fun r =>
        (r.status = "Y" ∨ r.status = "A")
        ∧ _normalize_opus_pc_id (some r.opus_pc_id) = some caller) = some rOwn →
      ownershipPairOf strptime codeTable q
        = (some (ownText (if rOwn.created_at ≠ "" then rOwn.created_at else rOwn.updated_at)),
           [CodeAdvice.duplicateScanBySameUser
             (if rOwn.created_at ≠ "" then rOwn.created_at else rOwn.updated_at) c]))
    ∧ ((ascCodeRowsOf strptime codeTable q).find? (fun r =>
        (r.status = "Y" ∨ r.status = "A")
        ∧ _normalize_opus_pc_id (some r.opus_pc_id) = some caller) = none →
      ((ascCodeRowsOf strptime codeTable q).find? (fun r =>
          (r.status = "Y" ∨ r.status = "A")
          ∧ _normalize_opus_pc_id (some r.opus_pc_id) ≠ some caller) ≠ none
       ∧ ∀ rOth, (ascCodeRowsOf strptime codeTable q).find? (fun r =>
            (r.status = "Y" ∨ r.status = "A")
            ∧ _normalize_opus_pc_id (some r.opus_pc_id) ≠ some caller) = some rOth →
          ownershipPairOf strptime codeTable q
            = (some fraudText,
               [CodeAdvice.createComplaintForFraudScan c
                 (_normalize_opus_pc_id (some rOth.opus_pc_id))
                 (if rOth.created_at ≠ "" then rOth.created_at else rOth.updated_at)
                 "call_create_complaint_tool"]))) := by
  have hcne : caller ≠ "" := normalize_ne_empty
    (show _normalize_opus_pc_id (optOrStr q.caller_opus_pc_id q.opus_pc_id)
      = some caller from hcaller)
  have hmem := head_mem_asc strptime codeTable q c e0 hcc hc hhead
  have htrC : optTruthy q.coupon_code = true := by
    rw [hcc]; simp [optTruthy, hc]
  have hsome : (latestEntryOf strptime codeTable q).isSome = true := by
    unfold latestEntryOf
    rw [hhead]
    rfl
  have hlst : latestStatusOf strptime codeTable q = e0.status :=
    latestStatusOf_eq strptime codeTable q e0 hhead
  have hgate2 : latestStatusOf strptime codeTable q = "A"
      ∨ latestStatusOf strptime codeTable q = "Y" := by rw [hlst]; exact hst
  have hentry : latestEntryOf strptime codeTable q = some e0 := by
    unfold latestEntryOf
    exact hhead
  constructor
  · intro rOwn hfOwn
    unfold ownershipPairOf
    rw [if_pos ⟨htrC, hsome⟩, if_pos hgate2]
    simp only [hcaller, hentry, scanLoop_eq_find caller hcne, Option.orElse, hfOwn, hcc, strOr]
    simp
  · intro hfOwn
    have howner0 : ¬ _normalize_opus_pc_id (some e0.opus_pc_id) = some caller := by
      have h := List.find?_eq_none.mp hfOwn e0 hmem
      simp only [decide_eq_true_eq] at h
      intro habs
      exact h ⟨hst.symm, habs⟩
    have hfOth : (ascCodeRowsOf strptime codeTable q).find? (fun r =>
        (r.status = "Y" ∨ r.status = "A")
        ∧ _normalize_opus_pc_id (some r.opus_pc_id) ≠ some caller) ≠ none := by
      intro habs
      have h := List.find?_eq_none.mp habs e0 hmem
      simp only [decide_eq_true_eq] at h
      exact h ⟨hst.symm, howner0⟩
    refine ⟨hfOth, ?_⟩
    intro rOth hfOth2
    unfold ownershipPairOf
    rw [if_pos ⟨htrC, hsome⟩, if_pos hgate2]
    have howner0s : ¬ (some caller = _normalize_opus_pc_id (some e0.opus_pc_id)) :=
      fun h => howner0 h.symm
    simp only [hcaller, hentry, scanLoop_eq_find caller hcne, Option.orElse, hfOwn,
      hfOth2, hcc, strOr, Option.bind]
    simp [howner0s]

end Birla.CodeHistory

namespace Birla.CodeHistory

/-- **C4 (amended).** For every code whose latest scan record has status
Success or AlreadyUsed (queried by coupon code, with a resolvable caller
identifier and no role/code-type mismatch in play), the evaluator scans the
entire code history sorted ascending by time, but it is *any*
caller-owned Success/AlreadyUsed record — not the owner of the earliest
such record — that decides the verdict: if the caller owns some
Success/AlreadyUsed record (its first such record is `rOwn`), the message
is "already scanned by you" citing `rOwn`'s time, with a duplicate-scan
advice item and no fraud-complaint recommendation — even when an earlier
Success/AlreadyUsed record belongs to a different owner; only when the
caller owns none does the evaluator recommend CreateComplaint for
suspected fraud, citing the earliest other-owner record's owner and
time. -/
theorem C4_caller_record_beats_earlier_other
    (strptime : String → String → Option Nat) (str_to_int : String → Option Int)
    (codeTable : List CodeRow) (refTable : List RefRow) (q : Query)
    (c caller : String) (res : CodeResult)
    (hcc : q.coupon_code = some c) (hc : c ≠ "")
    (hut : q.user_type = none)
    (hcaller : callerIdOf q = some caller)
    (hres : query_code_history strptime str_to_int codeTable refTable q = .ok res)
    (hstatus : latestStatusOf strptime codeTable q = "A"
      ∨ latestStatusOf strptime codeTable q = "Y") :
    (∀ rOwn, (ascCodeRowsOf strptime codeTable q).find? (fun r =>
        (r.status = "Y" ∨ r.status = "A")
        ∧ _normalize_opus_pc_id (some r.opus_pc_id) = some caller) = some rOwn →
      res.message
        = ownText (if rOwn.created_at ≠ "" then rOwn.created_at else rOwn.updated_at)
      ∧ CodeAdvice.duplicateScanBySameUser
          (if rOwn.created_at ≠ "" then rOwn.created_at else rOwn.updated_at) c
          ∈ res.advice
      ∧ ∀ (cc : String) (who : Option String) (whn na : String),
          CodeAdvice.createComplaintForFraudScan cc who whn na ∉ res.advice)
    ∧ ((ascCodeRowsOf strptime codeTable q).find? (fun r =>
        (r.status = "Y" ∨ r.status = "A")
        ∧ _normalize_opus_pc_id (some r.opus_pc_id) = some caller) = none →
      ((ascCodeRowsOf strptime codeTable q).find? (fun r =>
          (r.status = "Y" ∨ r.status = "A")
          ∧ _normalize_opus_pc_id (some r.opus_pc_id) ≠ some caller) ≠ none
       ∧ ∀ rOth, (ascCodeRowsOf strptime codeTable q).find? (fun r =>
            (r.status = "Y" ∨ r.status = "A")
            ∧ _normalize_opus_pc_id (some r.opus_pc_id) ≠ some caller) = some rOth →
          res.message = fraudText
          ∧ CodeAdvice.createComplaintForFraudScan c
              (_normalize_opus_pc_id (some rOth.opus_pc_id))
              (if rOth.created_at ≠ "" then rOth.created_at else rOth.updated_at)
              "call_create_complaint_tool" ∈ res.advice)) := by
  obtain ⟨e0, hhead⟩ : ∃ e0, (limitedRowsOf strptime codeTable q).head? = some e0 := by
    cases hh : (limitedRowsOf strptime codeTable q).head? with
    | some e => exact ⟨e, rfl⟩
    | none =>
      exfalso
      unfold latestStatusOf at hstatus
      rw [hh] at hstatus
      simp at hstatus
  have hst : e0.status = "A" ∨ e0.status = "Y" := by
    have he := latestStatusOf_eq strptime codeTable q e0 hhead
    rw [he] at hstatus
    exact hstatus
  have htrC : optTruthy q.coupon_code = true := by
    rw [hcc]; simp [optTruthy, hc]
  have hg1 : ¬ (¬ optTruthy q.opus_pc_id = true ∧ ¬ optTruthy q.coupon_code = true) :=
    fun h => h.2 htrC
  have hmm := head_mem_matching strptime codeTable q e0 hhead
  have hg2 : ¬ ((matchingRows codeTable q).isEmpty = true) := by
    cases hm : matchingRows codeTable q with
    | nil => rw [hm] at hmm; cases hmm
    | cons a t => simp
  unfold query_code_history at hres
  rw [if_neg hg1, if_neg hg2] at hres
  cases hres
  have hspec := ownershipPairOf_spec strptime codeTable q c caller e0 hcc hc hcaller hhead hst
  have hmis := mismatchPairOf_none strptime codeTable q hut
  constructor
  · intro rOwn hfOwn
    have hOP := hspec.1 rOwn hfOwn
    refine ⟨?_, ?_, ?_⟩
    · show (match (mismatchPairOf strptime codeTable q).1 with
        | some m => m
        | none =>
          match (ownershipPairOf strptime codeTable q).1 with
          | some m => m
          | none =>
            match (manualDataOf strptime codeTable refTable q).1 with
            | some m => m
            | none =>
              match (propixDataOf strptime codeTable refTable q).1 with
              | some m => m
              | none => genericMessageOf strptime str_to_int codeTable q)
        = ownText (if rOwn.created_at ≠ "" then rOwn.created_at else rOwn.updated_at)
      rw [hmis, hOP]
    · show _ ∈ (mismatchPairOf strptime codeTable q).2
        ++ (ownershipPairOf strptime codeTable q).2
        ++ (statusTripleOf strptime codeTable q).2.2
        ++ (manualDataOf strptime codeTable refTable q).2.1
        ++ (propixDataOf strptime codeTable refTable q).2
        ++ lengthAdvOf strptime codeTable q
      rw [hmis, hOP]
      simp
    · intro cc who whn na hmem'
      rw [hmis, hOP] at hmem'
      simp only [List.mem_append] at hmem'
      rcases hmem' with ((((h | h) | h) | h) | h) | h
      · simp at h
      · simp at h
      · exact absurd h (fraud_not_mem_status strptime codeTable q cc who whn na)
      · exact absurd h (fraud_not_mem_manual strptime codeTable refTable q cc who whn na)
      · exact absurd h (fraud_not_mem_propix strptime codeTable refTable q cc who whn na)
      · exact absurd h (fraud_not_mem_length strptime codeTable q cc who whn na)
  · intro hfOwn
    obtain ⟨hne, hfr⟩ := hspec.2 hfOwn
    refine ⟨hne, ?_⟩
    intro rOth hfOth
    have hOP := hfr rOth hfOth
    constructor
    · show (match (mismatchPairOf strptime codeTable q).1 with
        | some m => m
        | none =>
          match (ownershipPairOf strptime codeTable q).1 with
          | some m => m
          | none =>
            match (manualDataOf strptime codeTable refTable q).1 with
            | some m => m
            | none =>
              match (propixDataOf strptime codeTable refTable q).1 with
              | some m => m
              | none => genericMessageOf strptime str_to_int codeTable q)
        = fraudText
      rw [hmis, hOP]
    · show _ ∈ (mismatchPairOf strptime codeTable q).2
        ++ (ownershipPairOf strptime codeTable q).2
        ++ (statusTripleOf strptime codeTable q).2.2
        ++ (manualDataOf strptime codeTable refTable q).2.1
        ++ (propixDataOf strptime codeTable refTable q).2
        ++ lengthAdvOf strptime codeTable q
      rw [hmis, hOP]
      simp

end Birla.CodeHistory

namespace Birla.CodeHistory

/-- Witness for C4 (amended) at the fixture input: the caller's first own
AlreadyUsed record is `c4r2`, and the returned message cites it. -/
theorem C4_witness :
    ((ascCodeRowsOf c4P [c4r1, c4r2] c4q).find? (fun r =>
        (r.status = "Y" ∨ r.status = "A")
        ∧ _normalize_opus_pc_id (some r.opus_pc_id) = some "PC-000001") = some c4r2)
    ∧ Except.map (fun r : CodeResult => r.message)
        (query_code_history c4P (fun _ => none) [c4r1, c4r2] [] c4q)
      = .ok (ownText "2024-02-01 00:00:00") := by
  obtain ⟨res, hres⟩ : ∃ r, query_code_history c4P (fun _ => none)
      [c4r1, c4r2] [] c4q = .ok r := ⟨_, rfl⟩
  have h := (C4_caller_record_beats_earlier_other c4P (fun _ => none)
      [c4r1, c4r2] [] c4q "123456789012" "PC-000001" res rfl (by decide) rfl rfl
      hres (Or.inl rfl)).1 c4r2 (by decide)
  refine ⟨by decide, ?_⟩
  rw [hres]
  show Except.ok res.message = Except.ok (ownText "2024-02-01 00:00:00")
  rw [h.1]
  rfl

/-- Fixture for C6: a single Geo-Restricted scan of code `987654321`. -/
def c6r : CodeRow :=
  { id := "1", opus_pc_id := "PC-000002", coupon_code := "987654321",
    coupon_type := "L", status := "G", earn_point := "0",
    created_at := "2024-01-01 00:00:00", updated_at := "2024-01-01 00:00:00" }

/-- Fixture for C6: query by that code. -/
def c6q : Query :=
  { opus_pc_id := none, coupon_code := some "987654321", limit := none,
    order := none, user_type := none, caller_opus_pc_id := some "PC-000001" }

/-- Fixture for C6: the reference snapshot with upstream code 404. -/
def c6ref404 : RefRow :=
  { code_history_id := "1", propix_response := "404 Not Found", scan_method := "M" }

/-- Fixture for C6: the same reference snapshot with upstream code 200. -/
def c6ref200 : RefRow :=
  { code_history_id := "1", propix_response := "200 OK", scan_method := "M" }

/-- **C6 (counterexample).** The claim says the upstream-consistency checks
only add advice items and never change the returned message, which is
selected independently of the upstream response code.  Here two inputs
identical except for the upstream response code produce different
messages: with `404 Not Found` the status-slot geo-restriction message is
replaced by the pending-style text; with `200 OK` the geo message is
returned. -/
theorem C6_counterexample :
    Except.map (fun r : CodeResult => r.message)
        (query_code_history (fun _ _ => none) (fun _ => none) [c6r] [c6ref404] c6q)
      = .ok pendingText
    ∧ Except.map (fun r : CodeResult => r.message)
        (query_code_history (fun _ _ => none) (fun _ => none) [c6r] [c6ref200] c6q)
      = .ok geoText
    ∧ pendingText ≠ geoText
    ∧ (statusTripleOf (fun _ _ => none) [c6r] c6q).1 = some geoText :=
  ⟨rfl, rfl, by decide, rfl⟩

end Birla.CodeHistory

namespace Birla.CodeHistory

/-- **C6 (amended).** For every scan-history evaluation, the single
returned message is selected by the fixed precedence
mismatch > ownership/duplicate > manual-entry fallback > status slot >
generic summary; the upstream 500-error check contributes only advice, and
the upstream checks leave the status slot untouched — equal to the
status-specific candidate — *except* in one case: when the latest
reference snapshot's upstream code is `404 NOT FOUND`, the local status is
not Pending, and no higher-precedence message was selected, the status
slot is rewritten to the pending-style text.  The message is therefore not
independent of the upstream response code. -/
theorem C6_precedence_and_404_override
    (strptime : String → String → Option Nat) (str_to_int : String → Option Int)
    (codeTable : List CodeRow) (refTable : List RefRow) (q : Query)
    (res : CodeResult)
    (hres : query_code_history strptime str_to_int codeTable refTable q = .ok res) :
    (∀ m, (mismatchPairOf strptime codeTable q).1 = some m → res.message = m)
    ∧ ((mismatchPairOf strptime codeTable q).1 = none →
        ∀ m, (ownershipPairOf strptime codeTable q).1 = some m → res.message = m)
    ∧ ((mismatchPairOf strptime codeTable q).1 = none →
        (ownershipPairOf strptime codeTable q).1 = none →
        ∀ m, (manualDataOf strptime codeTable refTable q).1 = some m → res.message = m)
    ∧ ((mismatchPairOf strptime codeTable q).1 = none →
        (ownershipPairOf strptime codeTable q).1 = none →
        (manualDataOf strptime codeTable refTable q).1 = none →
        ∀ m, (propixDataOf strptime codeTable refTable q).1 = some m → res.message = m)
    ∧ ((mismatchPairOf strptime codeTable q).1 = none →
        (ownershipPairOf strptime codeTable q).1 = none →
        (manualDataOf strptime codeTable refTable q).1 = none →
        (propixDataOf strptime codeTable refTable q).1 = none →
        res.message = genericMessageOf strptime str_to_int codeTable q)
    ∧ ((manualDataOf strptime codeTable refTable q).2.2 = none →
        (propixDataOf strptime codeTable refTable q).1
          = (statusTripleOf strptime codeTable q).1)
    ∧ (∀ lr, (manualDataOf strptime codeTable refTable q).2.2 = some lr →
        ¬ (pyUpper lr.propix_response = "404 NOT FOUND"
            ∧ latestStatusOf strptime codeTable q ≠ "P") →
        (propixDataOf strptime codeTable refTable q).1
          = (statusTripleOf strptime codeTable q).1)
    ∧ (∀ lr, (manualDataOf strptime codeTable refTable q).2.2 = some lr →
        pyUpper lr.propix_response = "404 NOT FOUND" →
        latestStatusOf strptime codeTable q ≠ "P" →
        (mismatchPairOf strptime codeTable q).1 = none →
        (ownershipPairOf strptime codeTable q).1 = none →
        (manualDataOf strptime codeTable refTable q).1 = none →
        (propixDataOf strptime codeTable refTable q).1 = some pendingText) := by
  unfold query_code_history at hres
  by_cases hg1 : ¬ optTruthy q.opus_pc_id = true ∧ ¬ optTruthy q.coupon_code = true
  · rw [if_pos hg1] at hres
    exact absurd hres (by simp)
  · rw [if_neg hg1] at hres
    by_cases hg2 : (matchingRows codeTable q).isEmpty = true
    · rw [if_pos hg2] at hres
      exact absurd hres (by simp)
    · rw [if_neg hg2] at hres
      cases hres
      refine ⟨?_, ?_, ?_, ?_, ?_, ?_, ?_, ?_⟩
      · intro m hm
        show (match (mismatchPairOf strptime codeTable q).1 with
          | some m => m
          | none =>
            match (ownershipPairOf strptime codeTable q).1 with
            | some m => m
            | none =>
              match (manualDataOf strptime codeTable refTable q).1 with
              | some m => m
              | none =>
                match (propixDataOf strptime codeTable refTable q).1 with
                | some m => m
                | none => genericMessageOf strptime str_to_int codeTable q) = m
        rw [hm]
      · intro h1 m hm
        show (match (mismatchPairOf strptime codeTable q).1 with
          | some m => m
          | none =>
            match (ownershipPairOf strptime codeTable q).1 with
            | some m => m
            | none =>
              match (manualDataOf strptime codeTable refTable q).1 with
              | some m => m
              | none =>
                match (propixDataOf strptime codeTable refTable q).1 with
                | some m => m
                | none => genericMessageOf strptime str_to_int codeTable q) = m
        rw [h1, hm]
      · intro h1 h2 m hm
        show (match (mismatchPairOf strptime codeTable q).1 with
          | some m => m
          | none =>
            match (ownershipPairOf strptime codeTable q).1 with
            | some m => m
            | none =>
              match (manualDataOf strptime codeTable refTable q).1 with
              | some m => m
              | none =>
                match (propixDataOf strptime codeTable refTable q).1 with
                | some m => m
                | none => genericMessageOf strptime str_to_int codeTable q) = m
        rw [h1, h2, hm]
      · intro h1 h2 h3 m hm
        show (match (mismatchPairOf strptime codeTable q).1 with
          | some m => m
          | none =>
            match (ownershipPairOf strptime codeTable q).1 with
            | some m => m
            | none =>
              match (manualDataOf strptime codeTable refTable q).1 with
              | some m => m
              | none =>
                match (propixDataOf strptime codeTable refTable q).1 with
                | some m => m
                | none => genericMessageOf strptime str_to_int codeTable q) = m
        rw [h1, h2, h3, hm]
      · intro h1 h2 h3 h4
        show (match (mismatchPairOf strptime codeTable q).1 with
          | some m => m
          | none =>
            match (ownershipPairOf strptime codeTable q).1 with
            | some m => m
            | none =>
              match (manualDataOf strptime codeTable refTable q).1 with
              | some m => m
              | none =>
                match (propixDataOf strptime codeTable refTable q).1 with
                | some m => m
                | none => genericMessageOf strptime str_to_int codeTable q)
          = genericMessageOf strptime str_to_int codeTable q
        rw [h1, h2, h3, h4]
      · intro hlr
        unfold propixDataOf
        rw [hlr]
      · intro lr hlr hn
        unfold propixDataOf
        rw [hlr]
        dsimp only
        rw [if_neg hn]
      · intro lr hlr h404 hP h1 h2 h3
        unfold propixDataOf
        rw [hlr]
        dsimp only
        rw [if_pos ⟨h404, hP⟩, if_pos ⟨h1, h2, h3⟩]

end Birla.CodeHistory

namespace Birla.CodeHistory

/-- Witness for C6 (amended) at the fixture input: the 404 upstream code
rewrites the status slot to the pending-style text, and that is the
returned message. -/
theorem C6_witness :
    (manualDataOf (fun _ _ => none) [c6r] [c6ref404] c6q).2.2 = some c6ref404
    ∧ (propixDataOf (fun _ _ => none) [c6r] [c6ref404] c6q).1 = some pendingText
    ∧ Except.map (fun r : CodeResult => r.message)
        (query_code_history (fun _ _ => none) (fun _ => none) [c6r] [c6ref404] c6q)
      = .ok pendingText := by
  obtain ⟨res, hres⟩ : ∃ r, query_code_history (fun _ _ => none) (fun _ => none)
      [c6r] [c6ref404] c6q = .ok r := ⟨_, rfl⟩
  have h := C6_precedence_and_404_override (fun _ _ => none) (fun _ => none)
      [c6r] [c6ref404] c6q res hres
  have hprop := h.2.2.2.2.2.2.2 c6ref404 rfl (by decide) (by decide) rfl rfl rfl
  have hmsg := h.2.2.2.1 rfl rfl rfl pendingText hprop
  refine ⟨rfl, hprop, ?_⟩
  rw [hres]
  show Except.ok res.message = Except.ok pendingText
  rw [hmsg]

end Birla.CodeHistory
